import Mathlib

/-!
# check_graylog2: the check evaluation pipeline of `main.go`

A shallow embedding of `main.go` (the Nagios check for a Graylog cluster) and
theorems about its reporter, URL normaliser, HTTP sampler, roster/liveness
step, service-state step and threshold evaluation.

Modelling conventions
* The process is a state-passing program: the globals `pdata`,
  `critical_node`, `running_node`, everything written to stdout so far and the
  number of HTTP requests issued form the state `St`; `os.Exit` and a run-time
  panic end the program with a `Run`.
* The libraries the program calls are inputs: `Lib` holds the pure ones
  (`strconv.ParseFloat`, `url.Parse`, the `fmt` verbs on `float64` and
  `time.Duration`), `World` the environment (the HTTP server's answers, the
  clock, the `NCG2` variable).  Theorems quantify over all of them.
* A `float64` is a `F64`: NaN, the two infinities, negative zero, or a finite
  value given by the rational number it denotes.  Only comparisons are
  computed on them, and those are exact in IEEE-754.
* `encoding/json` decodes into `map[string]interface{}`; the decoded tree is
  a `JVal`, with `JVal.null` for the nil interface (JSON `null`, and what
  indexing a map at an absent key returns).
-/

namespace Graylog

/-! ## float64 -/

/-- A `float64` value. `fin q` is the finite value denoting the rational `q`
(`fin 0` is positive zero). -/
inductive F64 where
  | nan
  | negInf
  | fin (q : ℚ)
  | negZero
  | posInf

/-- Position of a float in the IEEE order: `none` for NaN (unordered), else the
band (-1 for -Inf, 0 for finite, 1 for +Inf) and the value inside the band. -/
def F64.key : F64 → Option (Int × ℚ)
  | .nan => none
  | .negInf => some (-1, 0)
  | .fin q => some (0, q)
  | .negZero => some (0, 0)
  | .posInf => some (1, 0)

/-- Go `a < b` on `float64`: false as soon as one side is NaN. -/
def F64.lt (a b : F64) : Bool :=
  match a.key, b.key with
  | some (i, x), some (j, y) => decide (i < j) || (decide (i = j) && decide (x < y))
  | _, _ => false

/-- Go `a > b` on `float64`. -/
def F64.gt (a b : F64) : Bool := F64.lt b a

/-- Go `a >= b` on `float64`: false as soon as one side is NaN. -/
def F64.ge (a b : F64) : Bool :=
  match a.key, b.key with
  | some (i, x), some (j, y) => decide (j < i) || (decide (i = j) && decide (y ≤ x))
  | _, _ => false

/-- The constant `0` passed to `perf` in `init`. -/
def F64.zero : F64 := F64.fin 0

/-! ## Decoded JSON -/

/-- A value of type `interface{}` as `encoding/json` produces it. -/
inductive JVal where
  | null
  | bool (b : Bool)
  | num (x : F64)
  | str (s : String)
  | arr (xs : List JVal)
  | obj (kvs : List (String × JVal))

/-- A `map[string]interface{}`, as an association list (first binding wins). -/
abbrev JObj := List (String × JVal)

/-- Go `m[k]` on a `map[string]interface{}`: the nil interface when `k` is absent. -/
def idx (m : JObj) (k : String) : JVal :=
  match m.lookup k with
  | some v => v
  | none => JVal.null

/-- Go `v == nil` on an `interface{}`. -/
def isNil : JVal → Bool
  | .null => true
  | _ => false

/-- The type assertion `v.(float64)`: `none` is the run-time panic. -/
def asFloat : JVal → Option F64
  | .num x => some x
  | _ => none

/-- The type assertion `v.(string)`. -/
def asString : JVal → Option String
  | .str s => some s
  | _ => none

/-- The type assertion `v.(bool)`. -/
def asBool : JVal → Option Bool
  | .bool b => some b
  | _ => none

/-- The type assertion `v.([]interface{})`. -/
def asSlice : JVal → Option (List JVal)
  | .arr xs => some xs
  | _ => none

/-- The type assertion `v.(map[string]interface{})`. -/
def asMap : JVal → Option JObj
  | .obj kvs => some kvs
  | _ => none

/-! ## Libraries and environment -/

/-- The fields of a `*url.URL` that `parse` reads. -/
structure URL where
  Scheme : String
  Host : String
  Path : String
deriving DecidableEq

/-- The pure library functions `main.go` calls. An `error` is its text;
`none` is the nil error. -/
structure Lib where
  /-- The call `strconv.ParseFloat(s, 64)`: the value and the error. -/
  ParseFloat : String → F64 × Option String
  /-- The call `url.Parse(s)`. -/
  Parse : String → Except String URL
  /-- The verb `%f` on a `float64`. -/
  fmtF : F64 → String
  /-- The verb `%.f` on a `float64`. -/
  fmt0 : F64 → String
  /-- The verb `%.10f` on a `float64`. -/
  fmt10 : F64 → String
  /-- The verb `%.6f` on a `float64`. -/
  fmt6 : F64 → String
  /-- The verb `%v` on a `float64`. -/
  fmtV : F64 → String
  /-- The verb `%v` on a `time.Duration` (nanoseconds). -/
  fmtDuration : Int → String
  /-- The method `Duration.Seconds`. -/
  Seconds : Int → F64

/-- What one HTTP request of `query` meets. -/
inductive Resp where
  /-- Go `http.NewRequest` fails: `req` is nil and `req.SetBasicAuth` panics. -/
  | requestErr
  /-- Go `client.Do` returns an error. -/
  | connectErr (e : String)
  /-- Go `ioutil.ReadAll` returns an error. -/
  | readErr (StatusCode : Nat) (e : String)
  /-- The body was read: its text, and what `json.Unmarshal` makes of it. -/
  | body (StatusCode : Nat) (text : String) (data : Except String JObj)

/-- The environment of one run. -/
structure World where
  /-- The variable `NCG2` (`debug`). -/
  debug : String
  /-- The build-time version string `id`. -/
  id : String
  /-- The answer to the `n`-th request (counted from 0), given target, user, password. -/
  net : Nat → String → String → String → Resp
  /-- The value of `time.Since(start)` at line 195, in nanoseconds. -/
  elapsed : Int

/-- The command line after `flag.Parse`. -/
structure Args where
  link : String
  user : String
  pass : String
  version : Bool
  indexwarn : String
  indexcrit : String
  uncommitCrit : String
  processBufferTimeCrit : String
  inputBufferCrit : String

/-! ## Program state and control -/

/-- The mutable globals, stdout so far (one entry per write) and the number of
requests issued. The global `cdata` is only written, never read, and is left out. -/
structure St where
  calls : Nat
  out : List String
  pdata : String
  critical_node : String
  running_node : String
deriving DecidableEq

/-- How the process ends. -/
inductive Run where
  /-- Go `os.Exit(code)` after the writes `out` to stdout. -/
  | exit (out : List String) (code : Nat)
  /-- A run-time panic after the writes `out` to stdout: the Go runtime prints
  the trace on stderr and ends the process with exit status 2. -/
  | panic (out : List String)
deriving DecidableEq

/-- One step of the program: go on with a value and a state, or end the process. -/
inductive Step (α : Type) where
  | next (a : α) (st : St)
  | halt (r : Run)
deriving DecidableEq

/-- A program fragment. -/
def Prog (α : Type) : Type := St → Step α

/-- Sequencing: a halted process runs nothing more. -/
def Prog.bind {α β : Type} (m : Prog α) (f : α → Prog β) : Prog β :=
  fun st => match m st with
    | .next a st1 => f a st1
    | .halt r => .halt r

instance : Monad Prog where
  pure a := fun st => .next a st
  bind := Prog.bind

/-- A type assertion inside the program: a failed one panics. -/
def assert {α : Type} : Option α → Prog α
  | some a => fun st => .next a st
  | none => fun st => .halt (.panic st.out)

/-- Go `len(s) == 0` is all the program asks of a length; a string has no byte
exactly when it has no character. -/
def len (s : String) : Nat := s.length

/-! ## perf, consoleOutput, quit (lines 62-108) -/

/-- The string `perf` stores in `pdata` (line 63). -/
def perf (L : Lib) (elapsed total inputs tput index uncommited processBufferTime inputBuffer : F64) :
    String :=
  "time=" ++ L.fmtF elapsed ++ ";;;; total=" ++ L.fmt0 total ++ ";;;; sources=" ++ L.fmt0 inputs
    ++ ";;;; throughput=" ++ L.fmt0 tput ++ ";;;; index_failures=" ++ L.fmt0 index
    ++ ";;;; uncommited=" ++ L.fmt0 uncommited ++ ";;;;; processbuffertime="
    ++ L.fmt10 processBufferTime ++ ";;;;; inputbufferate_m15=" ++ L.fmt6 inputBuffer

/-- The string `consoleOutput` returns (line 66). -/
def consoleOutput (L : Lib) (elapsed total_cluster_nodes : F64) (running_node : String)
    (total index tput inputs uncommited processBufferTime inputBuffer : F64) : String :=
  "All nodes in the Cluster: " ++ L.fmtV total_cluster_nodes ++ "\nRunning nodes:\n"
    ++ running_node ++ "\n" ++ L.fmt0 total ++ " total events processed\n" ++ L.fmt0 index
    ++ " index failures\n" ++ L.fmt0 tput ++ " throughput\n" ++ L.fmt0 inputs ++ " sources\n"
    ++ L.fmt0 uncommited ++ " uncommited\n" ++ L.fmt10 processBufferTime
    ++ " processbuffertime\n" ++ L.fmt6 inputBuffer ++ " inputbufferrate m_15 \nCheck took "
    ++ L.fmtV elapsed ++ "\n"

/-- The nagios exit codes (lines 17-22). -/
def OK : Nat := 0
/-- Exit code WARNING. -/
def WARNING : Nat := 1
/-- Exit code CRITICAL. -/
def CRITICAL : Nat := 2
/-- Exit code UNKNOWN. -/
def UNKNOWN : Nat := 3

/-- The `switch status` of `quit` (lines 89-98); `ev` stays empty otherwise. -/
def ev (status : Nat) : String :=
  match status with
  | 0 => "OK"
  | 1 => "WARNING"
  | 2 => "CRITICAL"
  | 3 => "UNKNOWN"
  | _ => ""

/-- What `fmt.Println(err)` writes. -/
def printlnErr (err : Option String) : String :=
  match err with
  | some e => e ++ "\n"
  | none => "<nil>\n"

/-- The line `quit` prints (line 106). -/
def statusLine (status : Nat) (message pdata : String) : String :=
  ev status ++ " - " ++ message ++ "|" ++ pdata ++ "\n"

/-- The process end `quit` produces from state `st` (lines 86-108). -/
def quitRun (W : World) (st : St) (status : Nat) (message : String) (err : Option String) : Run :=
  let out := if len W.debug ≠ 0 then st.out ++ [printlnErr err] else st.out
  Run.exit (out ++ [statusLine status message st.pdata]) status

/-- The function `quit` (lines 86-108). -/
def quit {α : Type} (W : World) (status : Nat) (message : String) (err : Option String) : Prog α :=
  fun st => .halt (quitRun W st status message err)

/-- Read the state. -/
def getSt : Prog St := fun st => .next st st

/-- Assign to the globals. -/
def modifySt (f : St → St) : Prog Unit := fun st => .next () (f st)

/-! ## parse (lines 111-126) -/

/-- Go `strings.HasPrefix`. -/
def HasPrefix (s pre : String) : Bool := pre.data.isPrefixOf s.data

/-- Go `strings.ToLower`, on ASCII (a URL scheme is ASCII). -/
def ToLower (s : String) : String := String.mk (s.data.map Char.toLower)

/-- Go `strings.Contains`. -/
def Contains (s substr : String) : Bool := s.data.tails.any (fun t => substr.data.isPrefixOf t)

/-- The function `parse` (lines 111-126). -/
def parse (L : Lib) (W : World) (link : String) : Prog String :=
  match L.Parse link with
  | .error e => quit W UNKNOWN "Cannot parse given URL." (some e)
  | .ok l => do
    if !Contains l.Host ":" then
      quit W UNKNOWN ("Port number is missing. Please try " ++ l.Scheme ++ "://hostname:port") none
    if (!HasPrefix l.Scheme "HTTP") && (!HasPrefix l.Scheme "http") then
      quit W UNKNOWN "Only HTTP is supported as protocol." none
    pure (l.Scheme ++ "://" ++ l.Host ++ l.Path)

/-! ## query (lines 258-292) -/

/-- The state once the body `text` of a request was read: one more request
issued and, with `NCG2` set, the body printed (lines 278-280). -/
def received (W : World) (st : St) (text : String) : St :=
  if len W.debug ≠ 0 then { st with calls := st.calls + 1, out := st.out ++ [text ++ "\n"] }
  else { st with calls := st.calls + 1 }

/-- The function `query` (lines 258-292). Each call is one request to the world. -/
def query (W : World) (target user pass : String) : Prog JObj := fun st =>
  let st1 : St := { st with calls := st.calls + 1 }
  match W.net st.calls target user pass with
  | .requestErr => .halt (.panic st.out)
  | .connectErr e => quit W CRITICAL "Cannot connect to Graylog API" (some e) st1
  | .readErr _ e => quit W CRITICAL "No response received from Graylog API" (some e) st1
  | .body StatusCode text data =>
    match data with
    | .error e => quit W UNKNOWN "Cannot parse JSON from Graylog API" (some e) (received W st text)
    | .ok d =>
      if StatusCode ≠ 200 then
        quit W CRITICAL ("Graylog API replied with HTTP code " ++ toString StatusCode) none
          (received W st text)
      else .next d (received W st text)

/-! ## main, roster and liveness (lines 145-171) -/

/-- The body of the loop over `all_cluster_nodes` (lines 153-166). The counters
`run_node_ok` and `run_node_err` are never read and are left out. -/
def nodeStep (W : World) (A : Args) (c : String) (result : JVal) : Prog Unit := do
  let node ← assert (asMap result)
  let node_id := idx node "node_id"
  let node_hostname := idx node "hostname"
  let run_node ← query W (c ++ "/cluster") A.user A.pass
  let id ← assert (asString node_id)
  let run_node_lc := idx run_node id
  if isNil run_node_lc then
    let h ← assert (asString node_hostname)
    modifySt fun st =>
      { st with critical_node := st.critical_node ++ ("Node: " ++ h ++ " - not alive") }
  let h ← assert (asString node_hostname)
  modifySt fun st =>
    { st with running_node := st.running_node ++ ("\tNode: " ++ h ++ " - is alive\n") }

/-- The loop `for _, result := range all_cluster_nodes` (lines 151-167). -/
def rosterLoop (W : World) (A : Args) (c : String) : List JVal → Prog Unit
  | [] => pure ()
  | result :: rest => do
    nodeStep W A c result
    rosterLoop W A c rest

/-- Lines 151-171: the loop over the roster and the exit on dead nodes. -/
def liveness (W : World) (A : Args) (c : String) (all_cluster_nodes : List JVal) : Prog Unit := do
  rosterLoop W A c all_cluster_nodes
  let st ← getSt
  if len st.critical_node > 0 then
    quit W CRITICAL st.critical_node none

/-- Lines 145-171: the roster request, then `liveness`; returns `total_cluster_nodes`. -/
def roster (W : World) (A : Args) (c : String) : Prog JVal := do
  let cluster_nodes ← query W (c ++ "/system/cluster/nodes") A.user A.pass
  let total_cluster_nodes := idx cluster_nodes "total"
  let all_cluster_nodes ← assert (asSlice (idx cluster_nodes "nodes"))
  liveness W A c all_cluster_nodes
  pure total_cluster_nodes

/-! ## main, service state (lines 173-182) -/

/-- The checks on the decoded `/system` answer (lines 174-182). -/
def systemChecks (W : World) (system : JObj) : Prog Unit := do
  let is_processing ← assert (asBool (idx system "is_processing"))
  if is_processing != true then
    quit W CRITICAL "Service is not processing!" none
  let lifecycle ← assert (asString (idx system "lifecycle"))
  if lifecycle ≠ "running" then
    quit W WARNING ("lifecycle: " ++ lifecycle) none
  let lb_status ← assert (asString (idx system "lb_status"))
  if lb_status ≠ "alive" then
    quit W WARNING ("lb_status: " ++ lb_status) none

/-- Lines 173-182. -/
def serviceState (W : World) (A : Args) (c : String) : Prog Unit := do
  let system ← query W (c ++ "/system") A.user A.pass
  systemChecks W system

/-! ## main, metric sampling (lines 184-198) -/

/-- The values threshold evaluation works on: `total_cluster_nodes` is still an
`interface{}` there, the seven metrics have passed their `.(float64)` at line 198. -/
structure Sample where
  total_cluster_nodes : JVal
  /-- The value `total["events"]`. -/
  total_events : F64
  /-- The value `inputs["total"]`. -/
  inputs_total : F64
  /-- The value `tput["throughput"]`. -/
  tput : F64
  /-- The value `index["total"]`. -/
  index_total : F64
  /-- The value `uncommited["value"]`. -/
  uncommited : F64
  /-- The value `processBufferTime["p95"]`. -/
  processBufferTime : F64
  /-- The value `inputBuffer["m15_rate"]`. -/
  inputBuffer : F64
  /-- The duration `elapsed`, in nanoseconds. -/
  elapsed : Int

/-- Lines 184-198 up to the evaluation of the arguments of `perf`. -/
def metrics (W : World) (A : Args) (c : String) (total_cluster_nodes : JVal) : Prog Sample := do
  let index ← query W (c ++ "/system/indexer/failures?limit=1&offset=0") A.user A.pass
  let tput ← query W (c ++ "/system/throughput") A.user A.pass
  let inputs ← query W (c ++ "/system/inputs") A.user A.pass
  let totalcounts ← query W (c ++ "/system/indexer/overview") A.user A.pass
  let total ← assert (asMap (idx totalcounts "counts"))
  let uncommited ← query W (c ++ "/system/metrics/org.graylog2.journal.entries-uncommitted")
    A.user A.pass
  let processBufferTime ← query W (c ++
    "/system/metrics/org.graylog2.shared.buffers.processors.ProcessBufferProcessor.processTime")
    A.user A.pass
  let inputBuffer ← query W (c ++
    "/system/metrics/org.graylog2.shared.buffers.InputBufferImpl.incomingMessages") A.user A.pass
  let e ← assert (asFloat (idx total "events"))
  let i ← assert (asFloat (idx inputs "total"))
  let t ← assert (asFloat (idx tput "throughput"))
  let x ← assert (asFloat (idx index "total"))
  let u ← assert (asFloat (idx uncommited "value"))
  let p ← assert (asFloat (idx processBufferTime "p95"))
  let b ← assert (asFloat (idx inputBuffer "m15_rate"))
  pure ⟨total_cluster_nodes, e, i, t, x, u, p, b, W.elapsed⟩

/-- Lines 142-198 up to the evaluation of the arguments of `perf`: everything
that runs before `pdata` is assigned by `main`. -/
def sampling (L : Lib) (W : World) (A : Args) : Prog Sample := do
  let c ← parse L W A.link
  let total_cluster_nodes ← roster W A c
  serviceState W A c
  metrics W A c total_cluster_nodes

/-! ## main, threshold evaluation (lines 200-253) -/

/-- The index-centric summary of lines 212 and 222, after its first line. -/
def indexSummary (L : Lib) (s : Sample) : String :=
  "Service is running\n" ++ L.fmt0 s.total_events ++ " total events processed\n"
    ++ L.fmt0 s.index_total ++ " index failures\n" ++ L.fmt0 s.tput ++ " throughput\n"
    ++ L.fmt0 s.inputs_total ++ " sources\nCheck took " ++ L.fmtDuration s.elapsed ++ "\n"

/-- The call of `consoleOutput` at lines 232, 241, 250 and 253, its argument
`total_cluster_nodes.(float64)` having evaluated to `n`. -/
def fullSummary (L : Lib) (s : Sample) (n : F64) (running_node : String) : String :=
  consoleOutput L (L.Seconds s.elapsed) n running_node s.total_events s.index_total s.tput
    s.inputs_total s.uncommited s.processBufferTime s.inputBuffer

/-- The end of the process at a `quit` whose message is `head` followed by the
console summary (lines 232, 241, 250, 253): the argument
`total_cluster_nodes.(float64)` is evaluated first and panics on a value that
is no number. -/
def consoleRun (L : Lib) (W : World) (s : Sample) (st : St) (status : Nat) (head : String) : Run :=
  match asFloat s.total_cluster_nodes with
  | some n => quitRun W st status (head ++ fullSummary L s n st.running_node) none
  | none => Run.panic st.out

/-- A `quit` whose message is `head` followed by the console summary. -/
def quitConsole {α : Type} (L : Lib) (W : World) (s : Sample) (status : Nat) (head : String) :
    Prog α :=
  fun st => .halt (consoleRun L W s st status head)

/-- Lines 200-202. -/
def noThresholdsCheck (W : World) (A : Args) : Prog Unit := do
  if len A.indexwarn = 0 ∧ len A.indexcrit = 0 ∧ len A.uncommitCrit = 0
      ∧ len A.processBufferTimeCrit = 0 ∧ len A.inputBufferCrit = 0 then
    quit W CRITICAL "no thresholds set" none

/-- Lines 204-215. The second `:=` assigns `err` again: the error of parsing
`indexwarn` is overwritten by that of parsing `indexcrit`. -/
def indexWarnCheck (L : Lib) (W : World) (A : Args) (s : Sample) : Prog Unit := do
  if len A.indexwarn ≠ 0 then
    let indexwarn2 := (L.ParseFloat A.indexwarn).1
    let indexcrit2 := (L.ParseFloat A.indexcrit).1
    let err := (L.ParseFloat A.indexcrit).2
    if err ≠ none then
      quit W UNKNOWN "Cannot parse given index warning error value." err
    if F64.ge s.index_total indexwarn2 && F64.lt s.index_total indexcrit2 then
      quit W WARNING ("Index Failure above Warning Limit!\n" ++ indexSummary L s) none

/-- Lines 216-225. -/
def indexCritCheck (L : Lib) (W : World) (A : Args) (s : Sample) : Prog Unit := do
  if len A.indexcrit ≠ 0 then
    let indexcrit2 := (L.ParseFloat A.indexcrit).1
    let err := (L.ParseFloat A.indexcrit).2
    if err ≠ none then
      quit W UNKNOWN "Cannot parse given index critical error value." err
    if F64.ge s.index_total indexcrit2 then
      quit W CRITICAL ("Index Failure above Critical Limit!\n" ++ indexSummary L s) none

/-- Lines 226-234. -/
def uncommitCheck (L : Lib) (W : World) (A : Args) (s : Sample) : Prog Unit := do
  if len A.uncommitCrit ≠ 0 then
    let uncommitCrit2 := (L.ParseFloat A.uncommitCrit).1
    let err := (L.ParseFloat A.uncommitCrit).2
    if err ≠ none then
      quit W UNKNOWN "Cannot parse given uncommited warning error value." err
    if F64.gt s.uncommited uncommitCrit2 then
      quitConsole L W s CRITICAL "Uncommited above Warning Limit!\nService is running\n"

/-- Lines 235-243. -/
def processBufferCheck (L : Lib) (W : World) (A : Args) (s : Sample) : Prog Unit := do
  if len A.processBufferTimeCrit ≠ 0 then
    let processBufferTimeCrit2 := (L.ParseFloat A.processBufferTimeCrit).1
    let err := (L.ParseFloat A.processBufferTimeCrit).2
    if err ≠ none then
      quit W UNKNOWN "Cannot parse given process buffer time critical value." err
    if F64.gt s.processBufferTime processBufferTimeCrit2 then
      quitConsole L W s CRITICAL "Process Buffer Time critical!\nService is running\n"

/-- Lines 244-252. -/
def inputBufferCheck (L : Lib) (W : World) (A : Args) (s : Sample) : Prog Unit := do
  if len A.inputBufferCrit ≠ 0 then
    let inputBufferCrit2 := (L.ParseFloat A.inputBufferCrit).1
    let err := (L.ParseFloat A.inputBufferCrit).2
    if err ≠ none then
      quit W UNKNOWN "Cannot parse given input buffer critical value." err
    if F64.lt s.inputBuffer inputBufferCrit2 then
      quitConsole L W s CRITICAL "Input Buffer rate below threshold!\nService is running\n"

/-- Lines 200-253: threshold evaluation. It always ends the process. -/
def thresholds (L : Lib) (W : World) (A : Args) (s : Sample) : Prog Empty := do
  noThresholdsCheck W A
  indexWarnCheck L W A s
  indexCritCheck L W A s
  uncommitCheck L W A s
  processBufferCheck L W A s
  inputBufferCheck L W A s
  quitConsole L W s OK "Service is running!\n"

/-- The end of the process that threshold evaluation reaches from state `st`. -/
def thresholdRun (L : Lib) (W : World) (A : Args) (s : Sample) (st : St) : Run :=
  match thresholds L W A s st with
  | .halt r => r
  | .next e _ => nomatch e

/-- The exit status of the process (2 after a run-time panic). -/
def Run.code : Run → Nat
  | .exit _ code => code
  | .panic _ => 2

/-! ### The documented comparisons

The conditions under which a threshold is said to trigger, as functions of
the parsed thresholds. -/

/-- Some threshold option is set. -/
def anyThreshold (A : Args) : Bool :=
  !(len A.indexwarn == 0 && len A.indexcrit == 0 && len A.uncommitCrit == 0
    && len A.processBufferTimeCrit == 0 && len A.inputBufferCrit == 0)

/-- The comparison of `index_warn`: set, and `index_warn <= index_failures_total < index_crit`. -/
def warnHolds (L : Lib) (A : Args) (s : Sample) : Bool :=
  len A.indexwarn != 0 && F64.ge s.index_total (L.ParseFloat A.indexwarn).1
    && F64.lt s.index_total (L.ParseFloat A.indexcrit).1

/-- The comparison of `index_crit`: set, and `index_failures_total >= index_crit`. -/
def critHolds (L : Lib) (A : Args) (s : Sample) : Bool :=
  len A.indexcrit != 0 && F64.ge s.index_total (L.ParseFloat A.indexcrit).1

/-- The comparison of `uncommitted_crit`: set, and `uncommitted > uncommitted_crit`. -/
def uncommitHolds (L : Lib) (A : Args) (s : Sample) : Bool :=
  len A.uncommitCrit != 0 && F64.gt s.uncommited (L.ParseFloat A.uncommitCrit).1

/-- The comparison of `process_buffer_p95_crit`: set, and the p95 above it. -/
def processBufferHolds (L : Lib) (A : Args) (s : Sample) : Bool :=
  len A.processBufferTimeCrit != 0
    && F64.gt s.processBufferTime (L.ParseFloat A.processBufferTimeCrit).1

/-- The comparison of `input_buffer_m15_crit`: set, and the rate below it. -/
def inputBufferHolds (L : Lib) (A : Args) (s : Sample) : Bool :=
  len A.inputBufferCrit != 0 && F64.lt s.inputBuffer (L.ParseFloat A.inputBufferCrit).1

/-! ## init and main (lines 71-83, 128-255) -/

/-- The state after `init`: `perf(0, 0, 0, 0, 0, 0, 0, 0)` (line 77). -/
def initSt (L : Lib) : St :=
  { calls := 0
    out := []
    pdata := perf L F64.zero F64.zero F64.zero F64.zero F64.zero F64.zero F64.zero F64.zero
    critical_node := ""
    running_node := "" }

/-- The call of `perf` at line 198. -/
def perfOf (L : Lib) (s : Sample) : String :=
  perf L (L.Seconds s.elapsed) s.total_events s.inputs_total s.tput s.index_total s.uncommited
    s.processBufferTime s.inputBuffer

/-- Lines 142-253. -/
def mainProg (L : Lib) (W : World) (A : Args) : Prog Empty := do
  let s ← sampling L W A
  modifySt fun st => { st with pdata := perfOf L s }
  thresholds L W A s

/-- What line 132 prints. -/
def versionText (W : World) : String :=
  "Version: " ++ W.id ++ " License: BSD © 2016 - 2018 Antonino Catinello\n"
    ++ "Contributers: kahluagenie, theherodied\n"

/-- The function `main` (lines 128-255), after `flag.Parse`. The usage text of
`flag.PrintDefaults` goes to stderr. -/
def main (L : Lib) (W : World) (A : Args) : Run :=
  if A.version then Run.exit [versionText W] 3
  else if len A.user = 0 ∨ len A.pass = 0 then
    Run.exit ["API Username/Password is mandatory.\n"] 3
  else match mainProg L W A (initSt L) with
    | .halt r => r
    | .next e _ => nomatch e

/-! ## A small library instance for concrete runs

`strconv.ParseFloat` and the `fmt` verbs are inputs of the model. Concrete
runs use the instance below, which agrees with the Go library on the strings
and values those runs use. -/

/-- Value of a string of ASCII digits. -/
def digitsValue (cs : List Char) : Nat :=
  cs.foldl (fun n c => 10 * n + (c.toNat - 48)) 0

/-- The call `strconv.ParseFloat(s, 64)` on the fragment used in concrete runs: a
string of one to fifteen ASCII digits is that integer (exactly representable,
nil error); the empty string and a string of letters that spells no number,
such as `abc`, give value 0 and a syntax error. Every other string (a sign,
a decimal point, an exponent, `Inf`, `NaN`, a hexadecimal float) is outside
the fragment: this instance answers a syntax error there too, where Go may
accept the string. -/
def parseFloatDigits (s : String) : F64 × Option String :=
  if s.data ≠ [] ∧ s.data.length ≤ 15 ∧ s.data.all Char.isDigit then
    (F64.fin (digitsValue s.data), none)
  else
    (F64.fin 0, some ("strconv.ParseFloat: parsing \"" ++ s ++ "\": invalid syntax"))

/-- The quotient `n / d` rounded to the nearest integer, ties to even. -/
def roundHalfEven (n d : Nat) : Nat :=
  let f := n / d
  let r2 := 2 * (n % d)
  if r2 < d then f else if d < r2 then f + 1 else if f % 2 = 0 then f else f + 1

/-- Decimal digits of `n`, left-padded with zeros to width `w`. -/
def zeroPad (w n : Nat) : String :=
  String.mk (List.replicate (w - (toString n).length) '0') ++ toString n

/-- The verb `%.<prec>f` on the absolute value of a finite value. -/
def fixedAbs (prec : Nat) (q : ℚ) : String :=
  let r := roundHalfEven (q.num.natAbs * 10 ^ prec) q.den
  if prec = 0 then toString r
  else toString (r / 10 ^ prec) ++ "." ++ zeroPad prec (r % 10 ^ prec)

/-- The verb `%.<prec>f` on a `float64`. -/
def fixed (prec : Nat) : F64 → String
  | .nan => "NaN"
  | .posInf => "+Inf"
  | .negInf => "-Inf"
  | .negZero => "-" ++ fixedAbs prec 0
  | .fin q => if q < 0 then "-" ++ fixedAbs prec q else fixedAbs prec q

/-- The verb `%v` on a `float64`, on the fragment used in concrete runs: a
natural number below 10^6 prints as its decimal digits (from 10^6 on Go
switches to the exponent form). Other values are outside the fragment, where
this instance does not follow Go (it renders them with `%.6f`). -/
def showV : F64 → String
  | .fin q => if 0 ≤ q ∧ q.den = 1 ∧ q < ((10 ^ 6 : Nat) : ℚ) then toString q.num.toNat
      else fixed 6 (.fin q)
  | x => fixed 6 x

/-- The verb `%v` on a `time.Duration`, on the fragment used in concrete
runs: zero prints `0s`, a whole number of seconds below one minute prints
`<n>s`. Other durations are outside the fragment. -/
def showDuration (d : Int) : String :=
  if d = 0 then "0s"
  else if 0 < d ∧ d % 1000000000 = 0 ∧ d < 60000000000 then toString (d / 1000000000) ++ "s"
  else toString d ++ "ns"

/-- The method `Duration.Seconds`: exact for a whole number of seconds. -/
def secondsOf (d : Int) : F64 := F64.fin (mkRat d 1000000000)

/-- The `url.Parse` of concrete runs, on the fragment
`scheme://name[:port][/path]`: a scheme of lower-case letters, a host name
of letters, digits and dots, a port of digits, a path of letters, digits,
dots and slashes, and nothing else (no user info, query or fragment). Any
other string is outside the fragment and refused. -/
def parseSimpleURL (s : String) : Except String URL :=
  let scheme := s.data.takeWhile Char.isLower
  let r0 := s.data.dropWhile Char.isLower
  let r1 := r0.drop 3
  let name := r1.takeWhile (fun c => c.isAlphanum || c = '.')
  let r2 := r1.dropWhile (fun c => c.isAlphanum || c = '.')
  let port := if r2.head? = some ':' then ':' :: (r2.drop 1).takeWhile Char.isDigit else []
  let path := r2.drop port.length
  if scheme ≠ [] ∧ "://".data.isPrefixOf r0 ∧ name ≠ [] ∧ (path = [] ∨ path.head? = some '/')
      ∧ path.all (fun c => c.isAlphanum || c = '.' || c = '/') then
    .ok ⟨String.mk scheme, String.mk (name ++ port), String.mk path⟩
  else .error ("parse \"" ++ s ++ "\": outside the fragment")

/-- The library instance of concrete runs. -/
def testLib : Lib :=
  { ParseFloat := parseFloatDigits
    Parse := parseSimpleURL
    fmtF := fixed 6
    fmt0 := fixed 0
    fmt10 := fixed 10
    fmt6 := fixed 6
    fmtV := showV
    fmtDuration := showDuration
    Seconds := secondsOf }

/-! ### Roster and liveness, described

The words of the dead-node rule, as functions of the typed roster (pairs of
`node_id` and `hostname`) and of the decoded `/cluster` map. -/

/-- The value `x` is a roster entry with the given `node_id` and `hostname`. -/
def IsEntry (x : JVal) (p : String × String) : Prop :=
  ∃ node, x = .obj node ∧ idx node "node_id" = .str p.1 ∧ idx node "hostname" = .str p.2

/-- The node `id` counts as dead: indexing the `/cluster` map at `id` gives nil. -/
def deadIn (m : JObj) (id : String) : Bool := isNil (idx m id)

/-- Concatenation of a list of strings. -/
def concat : List String → String
  | [] => ""
  | x :: xs => x ++ concat xs

/-- The text appended to `critical_node` for the roster: one `Node: <hostname> -
not alive` per dead entry, in roster order, with no separator. -/
def deadMessage (m : JObj) (roster : List (String × String)) : String :=
  concat ((roster.filter (fun p => deadIn m p.1)).map (fun p => "Node: " ++ p.2 ++ " - not alive"))

/-- The text appended to `running_node` for the roster. -/
def aliveLines (roster : List (String × String)) : String :=
  concat (roster.map (fun p => "\tNode: " ++ p.2 ++ " - is alive\n"))

/-- The state after the loop over the roster, every `/cluster` request having
been answered with status 200, body `text` and decoded map `m`. -/
def rosterState (W : World) (st : St) (text : String) (m : JObj)
    (roster : List (String × String)) : St :=
  { calls := st.calls + roster.length
    out := st.out ++ (if len W.debug ≠ 0 then List.replicate roster.length (text ++ "\n") else [])
    pdata := st.pdata
    critical_node := st.critical_node ++ deadMessage m roster
    running_node := st.running_node ++ aliveLines roster }

/-! ### Reporter exits, described -/

/-- The process end `r` is a run-time panic before which, with `NCG2` unset,
nothing was written, or an exit made by the reporter with perfdata `pd`: the
status line is the last write, the only one with `NCG2` unset, and the exit
code is the status, one of 0 to 3. -/
def Reported (W : World) (pd : String) (r : Run) : Prop :=
  match r with
  | .panic out => len W.debug = 0 → out = []
  | .exit out code =>
    ∃ status message pre, status ≤ 3 ∧ code = status
      ∧ out = pre ++ [statusLine status message pd] ∧ (len W.debug = 0 → pre = [])

/-- The state holds perfdata `pd` and, with `NCG2` unset, nothing was written yet. -/
def Inv (W : World) (pd : String) (st : St) : Prop :=
  st.pdata = pd ∧ (len W.debug = 0 → st.out = [])

/-- The fragment `m` keeps `Inv` and ends the process only by a panic or through the reporter. -/
def Sound {α : Type} (W : World) (pd : String) (m : Prog α) : Prop :=
  ∀ st, Inv W pd st →
    match m st with
    | .next _ st1 => Inv W pd st1
    | .halt r => Reported W pd r

/-! ## Concrete inputs -/

/-- A world in which `NCG2` is unset and no request connects. -/
def worldDown : World :=
  { debug := ""
    id := ""
    net := fun _ _ _ _ => .connectErr "dial tcp 127.0.0.1:12900: connect: connection refused"
    elapsed := 0 }

/-- The command line `-u admin -p secret -w w -c c -uc uc -pbtc pbtc -ibc ibc`. -/
def argsOf (w c uc pbtc ibc : String) : Args :=
  { link := "http://localhost:12900"
    user := "admin"
    pass := "secret"
    version := false
    indexwarn := w
    indexcrit := c
    uncommitCrit := uc
    processBufferTimeCrit := pbtc
    inputBufferCrit := ibc }

/-- A sample of a one-node cluster with the given index failures and uncommitted
entries, `input_buffer_m15 = 500` and every other metric zero. -/
def sampleOf (index uncommitted : Nat) : Sample :=
  { total_cluster_nodes := .num (.fin 1)
    total_events := .fin 0
    inputs_total := .fin 0
    tput := .fin 0
    index_total := .fin index
    uncommited := .fin uncommitted
    processBufferTime := .fin 0
    inputBuffer := .fin 500
    elapsed := 0 }

/-- An answer with status 200 whose body decodes to `data`. -/
def ok200 (text : String) (data : JObj) : Resp := .body 200 text (.ok data)

/-- The answers of a healthy one-node cluster (node `n-a` on `host-a`) at
`http://localhost:12900`, with the given index failures and uncommitted
entries (numbers below 2^53, which a `float64` holds exactly), `m15_rate =
500` and every other metric zero. -/
def healthyNet (index uncommitted : Nat) (target : String) : Resp :=
  let base := "http://localhost:12900"
  if target = base ++ "/system/cluster/nodes" then
    ok200 "\x7b\"total\":1,\"nodes\":[\x7b\"node_id\":\"n-a\",\"hostname\":\"host-a\"\x7d]\x7d"
      [("total", .num (.fin 1)),
       ("nodes", .arr [.obj [("node_id", .str "n-a"), ("hostname", .str "host-a")]])]
  else if target = base ++ "/cluster" then
    ok200 "\x7b\"n-a\":\x7b\"lb_status\":\"alive\"\x7d\x7d"
      [("n-a", .obj [("lb_status", .str "alive")])]
  else if target = base ++ "/system" then
    ok200 "\x7b\"is_processing\":true,\"lifecycle\":\"running\",\"lb_status\":\"alive\"\x7d"
      [("is_processing", .bool true), ("lifecycle", .str "running"), ("lb_status", .str "alive")]
  else if target = base ++ "/system/indexer/failures?limit=1&offset=0" then
    ok200 ("\x7b\"total\":" ++ toString index ++ "\x7d") [("total", .num (.fin index))]
  else if target = base ++ "/system/throughput" then
    ok200 "\x7b\"throughput\":0\x7d" [("throughput", .num (.fin 0))]
  else if target = base ++ "/system/inputs" then
    ok200 "\x7b\"total\":0\x7d" [("total", .num (.fin 0))]
  else if target = base ++ "/system/indexer/overview" then
    ok200 "\x7b\"counts\":\x7b\"events\":0\x7d\x7d" [("counts", .obj [("events", .num (.fin 0))])]
  else if target = base ++ "/system/metrics/org.graylog2.journal.entries-uncommitted" then
    ok200 ("\x7b\"value\":" ++ toString uncommitted ++ "\x7d") [("value", .num (.fin uncommitted))]
  else if target = base ++
      "/system/metrics/org.graylog2.shared.buffers.processors.ProcessBufferProcessor.processTime" then
    ok200 "\x7b\"p95\":0\x7d" [("p95", .num (.fin 0))]
  else if target = base ++
      "/system/metrics/org.graylog2.shared.buffers.InputBufferImpl.incomingMessages" then
    ok200 "\x7b\"m15_rate\":500\x7d" [("m15_rate", .num (.fin 500))]
  else .body 404 "" (.error "unexpected end of JSON input")

/-- The healthy one-node cluster, `NCG2` unset, a check that takes no time. -/
def worldOf (index uncommitted : Nat) : World :=
  { debug := ""
    id := ""
    net := fun _ target _ _ => healthyNet index uncommitted target
    elapsed := 0 }

/-- The healthy cluster with no index failure and nothing uncommitted, except
that the endpoint `path` answers `r`. -/
def worldPatched (path : String) (r : Resp) : World :=
  { debug := ""
    id := ""
    net := fun _ target _ _ =>
      if target = "http://localhost:12900" ++ path then r else healthyNet 0 0 target
    elapsed := 0 }

/-- The sample of `sampleOf` when the roster answer has no `total`:
`total_cluster_nodes` is the nil interface. -/
def sampleNoTotal (index uncommitted : Nat) : Sample :=
  { sampleOf index uncommitted with total_cluster_nodes := .null }

/-- The healthy cluster with no index failure and nothing uncommitted, whose
roster answer lists node `n-a` but has no `total`. -/
def worldNoTotal : World :=
  worldPatched "/system/cluster/nodes"
    (ok200 "\x7b\"nodes\":[\x7b\"node_id\":\"n-a\",\"hostname\":\"host-a\"\x7d]\x7d"
      [("nodes", .arr [.obj [("node_id", .str "n-a"), ("hostname", .str "host-a")]])])

/-- The state in which a run against `worldOf` reaches threshold evaluation
(line 200): ten requests made, `pdata` assigned from the sample. -/
def evalSt (L : Lib) (s : Sample) : St :=
  { calls := 10
    out := []
    pdata := perfOf L s
    critical_node := ""
    running_node := "\tNode: host-a - is alive\n" }

/-! ## Basic lemmas -/

theorem bind_apply {α β : Type} (m : Prog α) (f : α → Prog β) (st : St) :
    (m >>= f) st = match m st with
      | .next a st1 => f a st1
      | .halt r => .halt r := rfl

theorem pure_apply {α : Type} (a : α) (st : St) : (pure a : Prog α) st = .next a st := rfl

theorem quit_apply {α : Type} (W : World) (status : Nat) (message : String) (err : Option String)
    (st : St) : (quit W status message err : Prog α) st = .halt (quitRun W st status message err) :=
  rfl

theorem getSt_apply (st : St) : getSt st = .next st st := rfl

theorem modifySt_apply (f : St → St) (st : St) : modifySt f st = .next () (f st) := rfl

theorem ite_prog {α : Type} (c : Prop) [Decidable c] (p q : Prog α) (st : St) :
    (if c then p else q) st = if c then p st else q st := by
  split <;> rfl

theorem quitRun_code (W : World) (st : St) (status : Nat) (message : String) (err : Option String) :
    (quitRun W st status message err).code = status := rfl

theorem len_eq_zero (s : String) : len s = 0 ↔ s = "" := by
  cases s with
  | mk d =>
    constructor
    · intro h
      have hd : d.length = 0 := h
      rw [List.length_eq_zero.mp hd]
    · intro h
      rw [h]
      rfl

theorem quitConsole_apply {α : Type} (L : Lib) (W : World) (s : Sample) (status : Nat)
    (head : String) (st : St) :
    (quitConsole L W s status head : Prog α) st = .halt (consoleRun L W s st status head) := rfl

theorem consoleRun_num (L : Lib) (W : World) (s : Sample) (st : St) (status : Nat) (head : String)
    (n : F64) (hn : s.total_cluster_nodes = .num n) :
    consoleRun L W s st status head
      = quitRun W st status (head ++ fullSummary L s n st.running_node) none := by
  simp [consoleRun, hn, asFloat]

/-! ## Threshold evaluation, check by check -/

theorem noThresholdsCheck_apply (W : World) (A : Args) (st : St) :
    noThresholdsCheck W A st =
      if anyThreshold A = true then .next () st
      else .halt (quitRun W st CRITICAL "no thresholds set" none) := by
  unfold noThresholdsCheck anyThreshold
  split_ifs <;> simp_all [bind_apply, ite_prog, quit_apply, pure_apply]

theorem indexWarnCheck_apply (L : Lib) (W : World) (A : Args) (s : Sample) (st : St) :
    indexWarnCheck L W A s st =
      if len A.indexwarn ≠ 0 then
        if (L.ParseFloat A.indexcrit).2 ≠ none then
          .halt (quitRun W st UNKNOWN "Cannot parse given index warning error value."
            (L.ParseFloat A.indexcrit).2)
        else if (F64.ge s.index_total (L.ParseFloat A.indexwarn).1
            && F64.lt s.index_total (L.ParseFloat A.indexcrit).1) = true then
          .halt (quitRun W st WARNING ("Index Failure above Warning Limit!\n" ++ indexSummary L s)
            none)
        else .next () st
      else .next () st := by
  unfold indexWarnCheck
  split_ifs <;> simp_all [bind_apply, ite_prog, quit_apply, pure_apply]

theorem indexCritCheck_apply (L : Lib) (W : World) (A : Args) (s : Sample) (st : St) :
    indexCritCheck L W A s st =
      if len A.indexcrit ≠ 0 then
        if (L.ParseFloat A.indexcrit).2 ≠ none then
          .halt (quitRun W st UNKNOWN "Cannot parse given index critical error value."
            (L.ParseFloat A.indexcrit).2)
        else if F64.ge s.index_total (L.ParseFloat A.indexcrit).1 = true then
          .halt (quitRun W st CRITICAL ("Index Failure above Critical Limit!\n" ++ indexSummary L s)
            none)
        else .next () st
      else .next () st := by
  unfold indexCritCheck
  split_ifs <;> simp_all [bind_apply, ite_prog, quit_apply, pure_apply]

theorem uncommitCheck_apply (L : Lib) (W : World) (A : Args) (s : Sample) (st : St) :
    uncommitCheck L W A s st =
      if len A.uncommitCrit ≠ 0 then
        if (L.ParseFloat A.uncommitCrit).2 ≠ none then
          .halt (quitRun W st UNKNOWN "Cannot parse given uncommited warning error value."
            (L.ParseFloat A.uncommitCrit).2)
        else if F64.gt s.uncommited (L.ParseFloat A.uncommitCrit).1 = true then
          .halt (consoleRun L W s st CRITICAL "Uncommited above Warning Limit!\nService is running\n")
        else .next () st
      else .next () st := by
  unfold uncommitCheck
  split_ifs <;> simp_all [bind_apply, ite_prog, quit_apply, pure_apply, quitConsole_apply]

theorem processBufferCheck_apply (L : Lib) (W : World) (A : Args) (s : Sample) (st : St) :
    processBufferCheck L W A s st =
      if len A.processBufferTimeCrit ≠ 0 then
        if (L.ParseFloat A.processBufferTimeCrit).2 ≠ none then
          .halt (quitRun W st UNKNOWN "Cannot parse given process buffer time critical value."
            (L.ParseFloat A.processBufferTimeCrit).2)
        else if F64.gt s.processBufferTime (L.ParseFloat A.processBufferTimeCrit).1 = true then
          .halt (consoleRun L W s st CRITICAL "Process Buffer Time critical!\nService is running\n")
        else .next () st
      else .next () st := by
  unfold processBufferCheck
  split_ifs <;> simp_all [bind_apply, ite_prog, quit_apply, pure_apply, quitConsole_apply]

theorem inputBufferCheck_apply (L : Lib) (W : World) (A : Args) (s : Sample) (st : St) :
    inputBufferCheck L W A s st =
      if len A.inputBufferCrit ≠ 0 then
        if (L.ParseFloat A.inputBufferCrit).2 ≠ none then
          .halt (quitRun W st UNKNOWN "Cannot parse given input buffer critical value."
            (L.ParseFloat A.inputBufferCrit).2)
        else if F64.lt s.inputBuffer (L.ParseFloat A.inputBufferCrit).1 = true then
          .halt (consoleRun L W s st CRITICAL
            "Input Buffer rate below threshold!\nService is running\n")
        else .next () st
      else .next () st := by
  unfold inputBufferCheck
  split_ifs <;> simp_all [bind_apply, ite_prog, quit_apply, pure_apply, quitConsole_apply]

theorem indexWarnCheck_of (L : Lib) (W : World) (A : Args) (s : Sample) (st : St)
    (hc : len A.indexwarn ≠ 0 → (L.ParseFloat A.indexcrit).2 = none) :
    indexWarnCheck L W A s st =
      if warnHolds L A s = true then
        .halt (quitRun W st WARNING ("Index Failure above Warning Limit!\n" ++ indexSummary L s)
          none)
      else .next () st := by
  rw [indexWarnCheck_apply]
  unfold warnHolds
  by_cases h : len A.indexwarn = 0
  · simp [h]
  · simp [h, hc h, Bool.and_assoc]

theorem indexCritCheck_of (L : Lib) (W : World) (A : Args) (s : Sample) (st : St)
    (hc : len A.indexcrit ≠ 0 → (L.ParseFloat A.indexcrit).2 = none) :
    indexCritCheck L W A s st =
      if critHolds L A s = true then
        .halt (quitRun W st CRITICAL ("Index Failure above Critical Limit!\n" ++ indexSummary L s)
          none)
      else .next () st := by
  rw [indexCritCheck_apply]
  unfold critHolds
  by_cases h : len A.indexcrit = 0
  · simp [h]
  · simp [h, hc h]

theorem uncommitCheck_of (L : Lib) (W : World) (A : Args) (s : Sample) (st : St)
    (hc : len A.uncommitCrit ≠ 0 → (L.ParseFloat A.uncommitCrit).2 = none) :
    uncommitCheck L W A s st =
      if uncommitHolds L A s = true then
        .halt (consoleRun L W s st CRITICAL "Uncommited above Warning Limit!\nService is running\n")
      else .next () st := by
  rw [uncommitCheck_apply]
  unfold uncommitHolds
  by_cases h : len A.uncommitCrit = 0
  · simp [h]
  · simp [h, hc h]

theorem processBufferCheck_of (L : Lib) (W : World) (A : Args) (s : Sample) (st : St)
    (hc : len A.processBufferTimeCrit ≠ 0 → (L.ParseFloat A.processBufferTimeCrit).2 = none) :
    processBufferCheck L W A s st =
      if processBufferHolds L A s = true then
        .halt (consoleRun L W s st CRITICAL "Process Buffer Time critical!\nService is running\n")
      else .next () st := by
  rw [processBufferCheck_apply]
  unfold processBufferHolds
  by_cases h : len A.processBufferTimeCrit = 0
  · simp [h]
  · simp [h, hc h]

theorem inputBufferCheck_of (L : Lib) (W : World) (A : Args) (s : Sample) (st : St)
    (hc : len A.inputBufferCrit ≠ 0 → (L.ParseFloat A.inputBufferCrit).2 = none) :
    inputBufferCheck L W A s st =
      if inputBufferHolds L A s = true then
        .halt (consoleRun L W s st CRITICAL
          "Input Buffer rate below threshold!\nService is running\n")
      else .next () st := by
  rw [inputBufferCheck_apply]
  unfold inputBufferHolds
  by_cases h : len A.inputBufferCrit = 0
  · simp [h]
  · simp [h, hc h]

/-- Threshold evaluation as a decision list, when every value it parses parses. -/
theorem thresholdRun_decision (L : Lib) (W : World) (A : Args) (s : Sample) (st : St)
    (hwc : len A.indexwarn ≠ 0 → (L.ParseFloat A.indexcrit).2 = none)
    (hc : len A.indexcrit ≠ 0 → (L.ParseFloat A.indexcrit).2 = none)
    (hu : len A.uncommitCrit ≠ 0 → (L.ParseFloat A.uncommitCrit).2 = none)
    (hp : len A.processBufferTimeCrit ≠ 0 → (L.ParseFloat A.processBufferTimeCrit).2 = none)
    (hi : len A.inputBufferCrit ≠ 0 → (L.ParseFloat A.inputBufferCrit).2 = none) :
    thresholdRun L W A s st =
      if anyThreshold A = false then quitRun W st CRITICAL "no thresholds set" none
      else if warnHolds L A s = true then
        quitRun W st WARNING ("Index Failure above Warning Limit!\n" ++ indexSummary L s) none
      else if critHolds L A s = true then
        quitRun W st CRITICAL ("Index Failure above Critical Limit!\n" ++ indexSummary L s) none
      else if uncommitHolds L A s = true then
        consoleRun L W s st CRITICAL "Uncommited above Warning Limit!\nService is running\n"
      else if processBufferHolds L A s = true then
        consoleRun L W s st CRITICAL "Process Buffer Time critical!\nService is running\n"
      else if inputBufferHolds L A s = true then
        consoleRun L W s st CRITICAL "Input Buffer rate below threshold!\nService is running\n"
      else consoleRun L W s st OK "Service is running!\n" := by
  unfold thresholdRun thresholds
  simp only [bind_apply, noThresholdsCheck_apply, indexWarnCheck_of L W A s _ hwc,
    indexCritCheck_of L W A s _ hc, uncommitCheck_of L W A s _ hu,
    processBufferCheck_of L W A s _ hp, inputBufferCheck_of L W A s _ hi, quitConsole_apply]
  by_cases h0 : anyThreshold A = true
  swap
  · simp [h0]
  by_cases h1 : warnHolds L A s = true
  · simp [h0, h1]
  by_cases h2 : critHolds L A s = true
  · simp [h0, h1, h2]
  by_cases h3 : uncommitHolds L A s = true
  · simp [h0, h1, h2, h3]
  by_cases h4 : processBufferHolds L A s = true
  · simp [h0, h1, h2, h3, h4]
  by_cases h5 : inputBufferHolds L A s = true
  · simp [h0, h1, h2, h3, h4, h5]
  · simp [h0, h1, h2, h3, h4, h5]

/-! ## Threshold evaluation: severity and parse failures -/

set_option maxRecDepth 1000000 in
/-- C7 fails as stated. The roster answer has no `total`, so
`total_cluster_nodes` is nil; with `-uc 1000` and nothing uncommitted the
run reaches threshold evaluation, the one provided threshold parses, a
threshold is provided and no documented comparison holds, yet the run does
not exit OK: `total_cluster_nodes.(float64)` panics in the arguments of the
OK report at line 253 and nothing is written. -/
theorem threshold_ok_counterexample :
    (testLib.ParseFloat "1000").2 = none
    ∧ anyThreshold (argsOf "" "" "1000" "" "") = true
    ∧ warnHolds testLib (argsOf "" "" "1000" "" "") (sampleNoTotal 0 0) = false
    ∧ critHolds testLib (argsOf "" "" "1000" "" "") (sampleNoTotal 0 0) = false
    ∧ uncommitHolds testLib (argsOf "" "" "1000" "" "") (sampleNoTotal 0 0) = false
    ∧ processBufferHolds testLib (argsOf "" "" "1000" "" "") (sampleNoTotal 0 0) = false
    ∧ inputBufferHolds testLib (argsOf "" "" "1000" "" "") (sampleNoTotal 0 0) = false
    ∧ thresholdRun testLib worldNoTotal (argsOf "" "" "1000" "" "") (sampleNoTotal 0 0)
        (evalSt testLib (sampleNoTotal 0 0)) = Run.panic []
    ∧ main testLib worldNoTotal (argsOf "" "" "1000" "" "") = Run.panic []
    ∧ (main testLib worldNoTotal (argsOf "" "" "1000" "" "")).code ≠ OK := by
  decide

/-- C7, amended. For every sample whose `total_cluster_nodes` is a number (the
code asserts it only when it builds the console summary) and every
threshold configuration in which each provided threshold parses and
`index_crit` is provided whenever `index_warn` is:
threshold evaluation exits with code OK exactly when some threshold is
provided and none of the documented comparisons holds; the message is then
`Service is running!` followed by the console summary; and with no threshold
provided it exits CRITICAL with the message `no thresholds set`. -/
theorem threshold_ok_iff_nothing_triggers (L : Lib) (W : World) (A : Args) (s : Sample) (st : St)
    (n : F64) (hn : s.total_cluster_nodes = .num n)
    (_hw : len A.indexwarn ≠ 0 → (L.ParseFloat A.indexwarn).2 = none)
    (hc : len A.indexcrit ≠ 0 → (L.ParseFloat A.indexcrit).2 = none)
    (hu : len A.uncommitCrit ≠ 0 → (L.ParseFloat A.uncommitCrit).2 = none)
    (hp : len A.processBufferTimeCrit ≠ 0 → (L.ParseFloat A.processBufferTimeCrit).2 = none)
    (hi : len A.inputBufferCrit ≠ 0 → (L.ParseFloat A.inputBufferCrit).2 = none)
    (hwc : len A.indexwarn ≠ 0 → len A.indexcrit ≠ 0) :
    ((thresholdRun L W A s st).code = OK ↔
      (anyThreshold A = true ∧ warnHolds L A s = false ∧ critHolds L A s = false
        ∧ uncommitHolds L A s = false ∧ processBufferHolds L A s = false
        ∧ inputBufferHolds L A s = false))
    ∧ ((thresholdRun L W A s st).code = OK →
        thresholdRun L W A s st
          = quitRun W st OK ("Service is running!\n" ++ fullSummary L s n st.running_node) none)
    ∧ (anyThreshold A = false →
        thresholdRun L W A s st = quitRun W st CRITICAL "no thresholds set" none) := by
  have hd := thresholdRun_decision L W A s st (fun h => hc (hwc h)) hc hu hp hi
  simp only [consoleRun_num L W s st _ _ n hn] at hd
  rw [hd]
  by_cases h0 : anyThreshold A = true
  swap
  · simp [h0, quitRun_code, OK, CRITICAL]
  by_cases h1 : warnHolds L A s = true
  · simp [h0, h1, quitRun_code, OK, WARNING]
  by_cases h2 : critHolds L A s = true
  · simp [h0, h1, h2, quitRun_code, OK, CRITICAL]
  by_cases h3 : uncommitHolds L A s = true
  · simp [h0, h1, h2, h3, quitRun_code, OK, CRITICAL]
  by_cases h4 : processBufferHolds L A s = true
  · simp [h0, h1, h2, h3, h4, quitRun_code, OK, CRITICAL]
  by_cases h5 : inputBufferHolds L A s = true
  · simp [h0, h1, h2, h3, h4, h5, quitRun_code, OK, CRITICAL]
  · simp [h0, h1, h2, h3, h4, h5, quitRun_code, OK]

set_option maxRecDepth 100000 in
/-- C7 at `-w 10 -c 100 -uc 1000 -pbtc 5 -ibc 10` on the healthy sample: every
threshold parses, nothing triggers, the run exits OK. -/
theorem threshold_ok_witness :
    (testLib.ParseFloat "10").2 = none ∧ (testLib.ParseFloat "100").2 = none
    ∧ (testLib.ParseFloat "1000").2 = none ∧ (testLib.ParseFloat "5").2 = none
    ∧ (thresholdRun testLib (worldOf 0 0) (argsOf "10" "100" "1000" "5" "10") (sampleOf 0 0)
        (evalSt testLib (sampleOf 0 0))).code = OK
    ∧ thresholdRun testLib (worldOf 0 0) (argsOf "10" "100" "1000" "5" "10") (sampleOf 0 0)
        (evalSt testLib (sampleOf 0 0))
      = quitRun (worldOf 0 0) (evalSt testLib (sampleOf 0 0)) OK
          ("Service is running!\n" ++ fullSummary testLib (sampleOf 0 0) (.fin 1)
            "\tNode: host-a - is alive\n") none :=
  have h := threshold_ok_iff_nothing_triggers testLib (worldOf 0 0)
    (argsOf "10" "100" "1000" "5" "10") (sampleOf 0 0) (evalSt testLib (sampleOf 0 0)) (.fin 1) rfl
    (by decide) (by decide) (by decide) (by decide) (by decide) (by decide)
  ⟨by decide, by decide, by decide, by decide, h.1.2 (by decide), h.2.1 (h.1.2 (by decide))⟩

set_option maxRecDepth 1000000 in
/-- C1 fails as stated. With `-w 10 -c 100 -uc 1000`, 50 index failures and
2000 uncommitted entries every threshold parses and the comparison of
`uncommitted_crit` holds, yet the run exits WARNING: the `index_warn` check
comes first and ends the run. With `-w 10 -uc 1000` (no `index_crit`) the
comparison of `uncommitted_crit` holds as well and the run exits UNKNOWN. -/
theorem severity_precedence_counterexample :
    ((testLib.ParseFloat "10").2 = none ∧ (testLib.ParseFloat "100").2 = none
      ∧ (testLib.ParseFloat "1000").2 = none)
    ∧ uncommitHolds testLib (argsOf "10" "100" "1000" "" "") (sampleOf 50 2000) = true
    ∧ thresholdRun testLib (worldOf 50 2000) (argsOf "10" "100" "1000" "" "") (sampleOf 50 2000)
        (evalSt testLib (sampleOf 50 2000))
      = main testLib (worldOf 50 2000) (argsOf "10" "100" "1000" "" "")
    ∧ main testLib (worldOf 50 2000) (argsOf "10" "100" "1000" "" "")
      = Run.exit ["WARNING - Index Failure above Warning Limit!\nService is running\n"
          ++ "0 total events processed\n50 index failures\n0 throughput\n0 sources\n"
          ++ "Check took 0s\n|time=0.000000;;;; total=0;;;; sources=0;;;; throughput=0;;;; "
          ++ "index_failures=50;;;; uncommited=2000;;;;; processbuffertime=0.0000000000;;;;; "
          ++ "inputbufferate_m15=500.000000\n"] 1
    ∧ uncommitHolds testLib (argsOf "10" "" "1000" "" "") (sampleOf 50 2000) = true
    ∧ (main testLib (worldOf 50 2000) (argsOf "10" "" "1000" "" "")).code = UNKNOWN := by
  decide

/-- C1, amended. For every sample whose `total_cluster_nodes` is a number and
every threshold configuration in which each provided threshold parses and
`index_crit` is provided whenever `index_warn` is, the severity is that of
the first check that triggers, in the order of evaluation: CRITICAL when no
threshold is provided, else WARNING when the `index_warn` comparison holds,
else CRITICAL when the comparison of a provided critical threshold holds,
else OK. So a critical comparison that holds makes the run exit CRITICAL
whenever the `index_warn` comparison does not hold. -/
theorem severity_of_first_trigger (L : Lib) (W : World) (A : Args) (s : Sample) (st : St)
    (n : F64) (hn : s.total_cluster_nodes = .num n)
    (_hw : len A.indexwarn ≠ 0 → (L.ParseFloat A.indexwarn).2 = none)
    (hc : len A.indexcrit ≠ 0 → (L.ParseFloat A.indexcrit).2 = none)
    (hu : len A.uncommitCrit ≠ 0 → (L.ParseFloat A.uncommitCrit).2 = none)
    (hp : len A.processBufferTimeCrit ≠ 0 → (L.ParseFloat A.processBufferTimeCrit).2 = none)
    (hi : len A.inputBufferCrit ≠ 0 → (L.ParseFloat A.inputBufferCrit).2 = none)
    (hwc : len A.indexwarn ≠ 0 → len A.indexcrit ≠ 0) :
    (thresholdRun L W A s st).code =
        (if anyThreshold A = false then CRITICAL
         else if warnHolds L A s = true then WARNING
         else if (critHolds L A s || uncommitHolds L A s || processBufferHolds L A s
            || inputBufferHolds L A s) = true then CRITICAL
         else OK)
    ∧ (warnHolds L A s = true → (thresholdRun L W A s st).code = WARNING)
    ∧ (warnHolds L A s = false →
        (critHolds L A s = true ∨ uncommitHolds L A s = true ∨ processBufferHolds L A s = true
          ∨ inputBufferHolds L A s = true) →
        (thresholdRun L W A s st).code = CRITICAL) := by
  have hd := thresholdRun_decision L W A s st (fun h => hc (hwc h)) hc hu hp hi
  simp only [consoleRun_num L W s st _ _ n hn] at hd
  have key : (thresholdRun L W A s st).code =
        (if anyThreshold A = false then CRITICAL
         else if warnHolds L A s = true then WARNING
         else if (critHolds L A s || uncommitHolds L A s || processBufferHolds L A s
            || inputBufferHolds L A s) = true then CRITICAL
         else OK) := by
    rw [hd]
    by_cases h0 : anyThreshold A = true
    swap
    · simp [h0, quitRun_code]
    by_cases h1 : warnHolds L A s = true
    · simp [h0, h1, quitRun_code]
    by_cases h2 : critHolds L A s = true
    · simp [h0, h1, h2, quitRun_code]
    by_cases h3 : uncommitHolds L A s = true
    · simp [h0, h1, h2, h3, quitRun_code]
    by_cases h4 : processBufferHolds L A s = true
    · simp [h0, h1, h2, h3, h4, quitRun_code]
    by_cases h5 : inputBufferHolds L A s = true
    · simp [h0, h1, h2, h3, h4, h5, quitRun_code]
    · simp [h0, h1, h2, h3, h4, h5, quitRun_code]
  refine ⟨key, ?_, ?_⟩
  · intro h1
    have h0 : anyThreshold A = true := by
      by_contra h
      simp [anyThreshold, warnHolds] at h h1
      simp [h.1] at h1
    rw [key]
    simp [h0, h1]
  · intro h1 hany
    have h0 : anyThreshold A = true := by
      by_contra h
      simp [anyThreshold, critHolds, uncommitHolds, processBufferHolds, inputBufferHolds] at h hany
      simp [h] at hany
    rw [key]
    rcases hany with h | h | h | h <;> simp [h0, h1, h]

set_option maxRecDepth 100000 in
/-- C1 amended, at `-w 10 -c 100 -uc 1000` with 5 index failures and 2000
uncommitted entries: the `index_warn` comparison does not hold, that of
`uncommitted_crit` does, the run exits CRITICAL. -/
theorem severity_of_first_trigger_witness :
    warnHolds testLib (argsOf "10" "100" "1000" "" "") (sampleOf 5 2000) = false
    ∧ uncommitHolds testLib (argsOf "10" "100" "1000" "" "") (sampleOf 5 2000) = true
    ∧ (thresholdRun testLib (worldOf 5 2000) (argsOf "10" "100" "1000" "" "") (sampleOf 5 2000)
        (evalSt testLib (sampleOf 5 2000))).code = CRITICAL :=
  ⟨by decide, by decide,
    (severity_of_first_trigger testLib (worldOf 5 2000) (argsOf "10" "100" "1000" "" "")
      (sampleOf 5 2000) (evalSt testLib (sampleOf 5 2000)) (.fin 1) rfl (by decide) (by decide)
      (by decide) (by decide) (by decide) (by decide)).2.2 (by decide) (Or.inr (Or.inl (by decide)))⟩

set_option maxRecDepth 1000000 in
/-- C2 fails as stated. With `-w 10` alone and 50 index failures, `index_warn`
parses and `index_failures_total >= index_warn`, yet the run exits UNKNOWN:
the empty `index_crit` is handed to `strconv.ParseFloat`, which fails. -/
theorem index_warn_alone_counterexample :
    (testLib.ParseFloat "10").2 = none
    ∧ F64.ge (sampleOf 50 0).index_total (testLib.ParseFloat "10").1 = true
    ∧ thresholdRun testLib (worldOf 50 0) (argsOf "10" "" "" "" "") (sampleOf 50 0)
        (evalSt testLib (sampleOf 50 0))
      = main testLib (worldOf 50 0) (argsOf "10" "" "" "" "")
    ∧ main testLib (worldOf 50 0) (argsOf "10" "" "" "" "")
      = Run.exit ["UNKNOWN - Cannot parse given index warning error value.|time=0.000000;;;; "
          ++ "total=0;;;; sources=0;;;; throughput=0;;;; index_failures=50;;;; uncommited=0;;;;; "
          ++ "processbuffertime=0.0000000000;;;;; inputbufferate_m15=500.000000\n"] 3 := by
  decide

/-- C2, amended. When `index_warn` is provided and parses: if `index_crit` is
not provided, the parse of the empty `index_crit` fails and the run exits
UNKNOWN with `Cannot parse given index warning error value.`, whatever the
sample; if the value of `index_crit` parses, the run exits WARNING with the
index-centric summary whenever `index_warn <= index_failures_total <
index_crit`. -/
theorem index_warn_needs_index_crit (L : Lib) (W : World) (A : Args) (s : Sample) (st : St)
    (hset : len A.indexwarn ≠ 0) (_hw : (L.ParseFloat A.indexwarn).2 = none) :
    (∀ e, len A.indexcrit = 0 → (L.ParseFloat "").2 = some e →
      thresholdRun L W A s st
        = quitRun W st UNKNOWN "Cannot parse given index warning error value." (some e))
    ∧ ((L.ParseFloat A.indexcrit).2 = none →
      F64.ge s.index_total (L.ParseFloat A.indexwarn).1 = true →
      F64.lt s.index_total (L.ParseFloat A.indexcrit).1 = true →
      thresholdRun L W A s st
        = quitRun W st WARNING ("Index Failure above Warning Limit!\n" ++ indexSummary L s)
            none) := by
  have h0 : anyThreshold A = true := by
    simp [anyThreshold, hset]
  constructor
  · intro e hc he
    have hc2 : A.indexcrit = "" := (len_eq_zero _).mp hc
    unfold thresholdRun thresholds
    simp only [bind_apply, noThresholdsCheck_apply, indexWarnCheck_apply]
    simp [h0, hset, hc2, he]
  · intro hc hge hlt
    unfold thresholdRun thresholds
    simp only [bind_apply, noThresholdsCheck_apply, indexWarnCheck_apply]
    simp [h0, hset, hc, hge, hlt]

set_option maxRecDepth 100000 in
/-- C2 amended, at `-w 10` alone (UNKNOWN) and at `-w 10 -c 100` with 50 index
failures (WARNING). -/
theorem index_warn_needs_index_crit_witness :
    (len (argsOf "10" "" "" "" "").indexwarn ≠ 0 ∧ (testLib.ParseFloat "10").2 = none
      ∧ (thresholdRun testLib (worldOf 50 0) (argsOf "10" "" "" "" "") (sampleOf 50 0)
          (evalSt testLib (sampleOf 50 0))).code = UNKNOWN)
    ∧ (len (argsOf "10" "100" "" "" "").indexwarn ≠ 0 ∧ (testLib.ParseFloat "100").2 = none
      ∧ (thresholdRun testLib (worldOf 50 0) (argsOf "10" "100" "" "" "") (sampleOf 50 0)
          (evalSt testLib (sampleOf 50 0))).code = WARNING) :=
  ⟨⟨by decide, by decide, by
      rw [(index_warn_needs_index_crit testLib (worldOf 50 0) (argsOf "10" "" "" "" "")
        (sampleOf 50 0) (evalSt testLib (sampleOf 50 0)) (by decide) (by decide)).1
        "strconv.ParseFloat: parsing \"\": invalid syntax" (by decide) (by decide)]
      rfl⟩,
   ⟨by decide, by decide, by
      rw [(index_warn_needs_index_crit testLib (worldOf 50 0) (argsOf "10" "100" "" "" "")
        (sampleOf 50 0) (evalSt testLib (sampleOf 50 0)) (by decide) (by decide)).2
        (by decide) (by decide) (by decide)]
      rfl⟩⟩

set_option maxRecDepth 1000000 in
/-- C3 fails as stated. With `-c 100 -uc abc` and 500 index failures the
provided `uncommitted_crit` does not parse, yet the run exits CRITICAL: the
`index_crit` check triggers first and `uncommitted_crit` is never parsed. -/
theorem parse_failure_counterexample :
    len (argsOf "" "100" "abc" "" "").uncommitCrit ≠ 0
    ∧ (testLib.ParseFloat "abc").2 ≠ none
    ∧ thresholdRun testLib (worldOf 500 0) (argsOf "" "100" "abc" "" "") (sampleOf 500 0)
        (evalSt testLib (sampleOf 500 0))
      = main testLib (worldOf 500 0) (argsOf "" "100" "abc" "" "")
    ∧ main testLib (worldOf 500 0) (argsOf "" "100" "abc" "" "")
      = Run.exit ["CRITICAL - Index Failure above Critical Limit!\nService is running\n"
          ++ "0 total events processed\n500 index failures\n0 throughput\n0 sources\n"
          ++ "Check took 0s\n|time=0.000000;;;; total=0;;;; sources=0;;;; throughput=0;;;; "
          ++ "index_failures=500;;;; uncommited=0;;;;; processbuffertime=0.0000000000;;;;; "
          ++ "inputbufferate_m15=500.000000\n"] 2 := by
  decide

/-- C3, amended. Thresholds are parsed one check at a time, in the order of
evaluation. When the run reaches the check of a provided `index_crit`,
`uncommitted_crit`, `process_buffer_p95_crit` or `input_buffer_m15_crit` (no
earlier check has ended the run) and that threshold does not parse, the run
exits UNKNOWN with the message of that check, and the value is not compared. -/
theorem parse_failure_when_reached (L : Lib) (W : World) (A : Args) (s : Sample) (st : St)
    (e : String) :
    (len A.indexcrit ≠ 0 → (L.ParseFloat A.indexcrit).2 = some e →
      indexWarnCheck L W A s st = .next () st →
      thresholdRun L W A s st
        = quitRun W st UNKNOWN "Cannot parse given index critical error value." (some e))
    ∧ (len A.uncommitCrit ≠ 0 → (L.ParseFloat A.uncommitCrit).2 = some e →
      indexWarnCheck L W A s st = .next () st → indexCritCheck L W A s st = .next () st →
      thresholdRun L W A s st
        = quitRun W st UNKNOWN "Cannot parse given uncommited warning error value." (some e))
    ∧ (len A.processBufferTimeCrit ≠ 0 → (L.ParseFloat A.processBufferTimeCrit).2 = some e →
      indexWarnCheck L W A s st = .next () st → indexCritCheck L W A s st = .next () st →
      uncommitCheck L W A s st = .next () st →
      thresholdRun L W A s st
        = quitRun W st UNKNOWN "Cannot parse given process buffer time critical value." (some e))
    ∧ (len A.inputBufferCrit ≠ 0 → (L.ParseFloat A.inputBufferCrit).2 = some e →
      indexWarnCheck L W A s st = .next () st → indexCritCheck L W A s st = .next () st →
      uncommitCheck L W A s st = .next () st → processBufferCheck L W A s st = .next () st →
      thresholdRun L W A s st
        = quitRun W st UNKNOWN "Cannot parse given input buffer critical value." (some e)) := by
  refine ⟨?_, ?_, ?_, ?_⟩
  · intro hset he h1
    have h0 : anyThreshold A = true := by simp [anyThreshold, hset]
    unfold thresholdRun thresholds
    simp only [bind_apply, noThresholdsCheck_apply, h0, if_true, h1, indexCritCheck_apply]
    simp [hset, he]
  · intro hset he h1 h2
    have h0 : anyThreshold A = true := by simp [anyThreshold, hset]
    unfold thresholdRun thresholds
    simp only [bind_apply, noThresholdsCheck_apply, h0, if_true, h1, h2, uncommitCheck_apply]
    simp [hset, he]
  · intro hset he h1 h2 h3
    have h0 : anyThreshold A = true := by simp [anyThreshold, hset]
    unfold thresholdRun thresholds
    simp only [bind_apply, noThresholdsCheck_apply, h0, if_true, h1, h2, h3,
      processBufferCheck_apply]
    simp [hset, he]
  · intro hset he h1 h2 h3 h4
    have h0 : anyThreshold A = true := by simp [anyThreshold, hset]
    unfold thresholdRun thresholds
    simp only [bind_apply, noThresholdsCheck_apply, h0, if_true, h1, h2, h3, h4,
      inputBufferCheck_apply]
    simp [hset, he]

set_option maxRecDepth 100000 in
/-- C3 amended, at `-c 100 -uc abc` with 5 index failures: the `index_crit`
check passes, `uncommitted_crit` does not parse, the run exits UNKNOWN. -/
theorem parse_failure_when_reached_witness :
    len (argsOf "" "100" "abc" "" "").uncommitCrit ≠ 0
    ∧ (testLib.ParseFloat "abc").2 = some "strconv.ParseFloat: parsing \"abc\": invalid syntax"
    ∧ thresholdRun testLib (worldOf 5 0) (argsOf "" "100" "abc" "" "") (sampleOf 5 0)
        (evalSt testLib (sampleOf 5 0))
      = quitRun (worldOf 5 0) (evalSt testLib (sampleOf 5 0)) UNKNOWN
          "Cannot parse given uncommited warning error value."
          (some "strconv.ParseFloat: parsing \"abc\": invalid syntax") :=
  ⟨by decide, by decide,
    (parse_failure_when_reached testLib (worldOf 5 0) (argsOf "" "100" "abc" "" "") (sampleOf 5 0)
      (evalSt testLib (sampleOf 5 0)) "strconv.ParseFloat: parsing \"abc\": invalid syntax").2.1
      (by decide) (by decide) (by decide) (by decide)⟩

set_option maxRecDepth 1000000 in
/-- The error of parsing `index_warn` is overwritten at line 207 before it is
looked at: with `-w abc -c 100` and 5 index failures, `abc` does not parse,
its value 0 is compared, and the run exits WARNING. -/
theorem unparsed_index_warn_is_compared :
    (testLib.ParseFloat "abc").2 ≠ none
    ∧ main testLib (worldOf 5 0) (argsOf "abc" "100" "" "" "")
      = Run.exit ["WARNING - Index Failure above Warning Limit!\nService is running\n"
          ++ "0 total events processed\n5 index failures\n0 throughput\n0 sources\n"
          ++ "Check took 0s\n|time=0.000000;;;; total=0;;;; sources=0;;;; throughput=0;;;; "
          ++ "index_failures=5;;;; uncommited=0;;;;; processbuffertime=0.0000000000;;;;; "
          ++ "inputbufferate_m15=500.000000\n"] 1 := by
  decide

/-! ## The URL normaliser and the sampler -/

/-- A lower-case scheme does not begin with `HTTP`. -/
theorem lower_not_HTTP (s : String) (hlow : ToLower s = s) : HasPrefix s "HTTP" = false := by
  have hd : s.data.map Char.toLower = s.data := by
    have := congrArg String.data hlow
    simpa [ToLower] using this
  unfold HasPrefix
  cases hs : s.data with
  | nil => decide
  | cons c cs =>
    rw [hs] at hd
    simp only [List.map_cons, List.cons.injEq] at hd
    have hc : c ≠ 'H' := by
      intro h
      rw [h] at hd
      exact absurd hd.1 (by decide)
    show List.isPrefixOf ['H', 'T', 'T', 'P'] (c :: cs) = false
    simp [List.isPrefixOf, Ne.symm hc]

set_option maxRecDepth 1000000 in
/-- C10 fails as stated. The link `ftp://localhost` parses, its scheme does not
begin with `http`, yet the run does not fail with `Only HTTP is supported as
protocol.`: the port check comes first and the run fails with `Port number
is missing. Please try ftp://hostname:port`. -/
theorem scheme_rule_counterexample :
    testLib.Parse "ftp://localhost" = .ok ⟨"ftp", "localhost", ""⟩
    ∧ HasPrefix (ToLower "ftp") "http" = false
    ∧ parse testLib worldDown "ftp://localhost" (initSt testLib)
      = .halt (Run.exit ["UNKNOWN - Port number is missing. Please try ftp://hostname:port|"
          ++ "time=0.000000;;;; total=0;;;; sources=0;;;; throughput=0;;;; index_failures=0;;;; "
          ++ "uncommited=0;;;;; processbuffertime=0.0000000000;;;;; "
          ++ "inputbufferate_m15=0.000000\n"] 3)
    ∧ parse testLib worldDown "ftp://localhost" (initSt testLib)
      ≠ .halt (quitRun worldDown (initSt testLib) UNKNOWN "Only HTTP is supported as protocol."
          none) := by
  refine ⟨by rfl, by decide, by decide, by decide⟩

/-- C10, amended. For every successfully parsed URL (its scheme is lower-case,
as `url.Parse` returns it): if the host contains no `:` the normaliser fails
UNKNOWN with `Port number is missing. Please try <scheme>://hostname:port`,
whatever the scheme; if the host contains `:` and the scheme does not begin
with `http` it fails UNKNOWN with `Only HTTP is supported as protocol.`; if
the host contains `:` and the scheme begins with `http` it returns exactly
scheme + `://` + host + path. -/
theorem parse_port_then_scheme (L : Lib) (W : World) (link : String) (l : URL) (st : St)
    (hparse : L.Parse link = .ok l) (hlow : ToLower l.Scheme = l.Scheme) :
    (Contains l.Host ":" = false →
      parse L W link st = .halt (quitRun W st UNKNOWN
        ("Port number is missing. Please try " ++ l.Scheme ++ "://hostname:port") none))
    ∧ (Contains l.Host ":" = true → HasPrefix (ToLower l.Scheme) "http" = false →
      parse L W link st = .halt (quitRun W st UNKNOWN "Only HTTP is supported as protocol." none))
    ∧ (Contains l.Host ":" = true → HasPrefix (ToLower l.Scheme) "http" = true →
      parse L W link st = .next (l.Scheme ++ "://" ++ l.Host ++ l.Path) st) := by
  have hH := lower_not_HTTP l.Scheme hlow
  rw [hlow]
  refine ⟨?_, ?_, ?_⟩
  · intro h
    simp [parse, hparse, bind_apply, h, quit_apply]
  · intro h1 h2
    simp [parse, hparse, bind_apply, h1, h2, hH, quit_apply, pure_apply]
  · intro h1 h2
    simp [parse, hparse, bind_apply, h1, h2, quit_apply, pure_apply]

set_option maxRecDepth 100000 in
/-- C10 amended, at `ftp://localhost:21/pub` (wrong scheme, port present) and
at `http://localhost:12900/api` (accepted). -/
theorem parse_port_then_scheme_witness :
    (testLib.Parse "ftp://localhost:21/pub" = .ok ⟨"ftp", "localhost:21", "/pub"⟩
      ∧ ToLower "ftp" = "ftp" ∧ Contains "localhost:21" ":" = true
      ∧ HasPrefix (ToLower "ftp") "http" = false
      ∧ parse testLib worldDown "ftp://localhost:21/pub" (initSt testLib)
        = .halt (quitRun worldDown (initSt testLib) UNKNOWN "Only HTTP is supported as protocol."
            none))
    ∧ (testLib.Parse "http://localhost:12900/api" = .ok ⟨"http", "localhost:12900", "/api"⟩
      ∧ ToLower "http" = "http" ∧ Contains "localhost:12900" ":" = true
      ∧ HasPrefix (ToLower "http") "http" = true
      ∧ parse testLib worldDown "http://localhost:12900/api" (initSt testLib)
        = .next "http://localhost:12900/api" (initSt testLib)) :=
  ⟨⟨by rfl, by decide, by decide, by decide,
      (parse_port_then_scheme testLib worldDown "ftp://localhost:21/pub"
        ⟨"ftp", "localhost:21", "/pub"⟩ (initSt testLib) (by rfl) (by decide)).2.1
        (by decide) (by decide)⟩,
   ⟨by rfl, by decide, by decide, by decide,
      (parse_port_then_scheme testLib worldDown "http://localhost:12900/api"
        ⟨"http", "localhost:12900", "/api"⟩ (initSt testLib) (by rfl) (by decide)).2.2
        (by decide) (by decide)⟩⟩

set_option maxRecDepth 1000000 in
/-- C4 fails as stated. The roster request is answered with status 500 and an
HTML body: the request connects, the body is read, the status is not 200,
yet the run exits UNKNOWN with `Cannot parse JSON from Graylog API`, because
the body is decoded before the status code is looked at. -/
theorem non200_counterexample :
    main testLib
        (worldPatched "/system/cluster/nodes"
          (.body 500 "<html>Internal Server Error</html>"
            (.error "invalid character '<' looking for beginning of value")))
        (argsOf "" "" "1000" "" "")
      = Run.exit ["UNKNOWN - Cannot parse JSON from Graylog API|time=0.000000;;;; total=0;;;; "
          ++ "sources=0;;;; throughput=0;;;; index_failures=0;;;; uncommited=0;;;;; "
          ++ "processbuffertime=0.0000000000;;;;; inputbufferate_m15=0.000000\n"] 3 := by
  decide

/-- C4, amended. For every request that connects and whose body is read: if
the body decodes as a JSON object and the status code N is not 200, the run
exits CRITICAL with the message `Graylog API replied with HTTP code N`; if
the body does not decode, the run exits UNKNOWN with `Cannot parse JSON from
Graylog API`, whatever the status code. -/
theorem query_status_after_decoding (W : World) (target user pass : String) (st : St) (N : Nat)
    (text : String) (data : Except String JObj)
    (hnet : W.net st.calls target user pass = .body N text data) :
    (∀ d, data = .ok d → N ≠ 200 →
      query W target user pass st = .halt (quitRun W (received W st text) CRITICAL
        ("Graylog API replied with HTTP code " ++ toString N) none))
    ∧ (∀ e, data = .error e →
      query W target user pass st = .halt (quitRun W (received W st text) UNKNOWN
        "Cannot parse JSON from Graylog API" (some e))) := by
  constructor
  · intro d hd hN
    subst hd
    simp [query, hnet, hN, quit_apply]
  · intro e he
    subst he
    simp [query, hnet, quit_apply]

set_option maxRecDepth 1000000 in
/-- C4 amended, at a roster request answered with status 500 and the JSON body
of an empty object: the run exits CRITICAL, `Graylog API replied with HTTP
code 500`. -/
theorem query_status_after_decoding_witness :
    (worldPatched "/system/cluster/nodes" (.body 500 "\x7b\x7d" (.ok []))).net 0
        "http://localhost:12900/system/cluster/nodes" "admin" "secret"
      = .body 500 "\x7b\x7d" (.ok [])
    ∧ query (worldPatched "/system/cluster/nodes" (.body 500 "\x7b\x7d" (.ok [])))
        "http://localhost:12900/system/cluster/nodes" "admin" "secret" (initSt testLib)
      = .halt (quitRun (worldPatched "/system/cluster/nodes" (.body 500 "\x7b\x7d" (.ok [])))
          (received (worldPatched "/system/cluster/nodes" (.body 500 "\x7b\x7d" (.ok [])))
            (initSt testLib) "\x7b\x7d")
          CRITICAL ("Graylog API replied with HTTP code " ++ toString 500) none)
    ∧ quitRun (worldPatched "/system/cluster/nodes" (.body 500 "\x7b\x7d" (.ok [])))
          (received (worldPatched "/system/cluster/nodes" (.body 500 "\x7b\x7d" (.ok [])))
            (initSt testLib) "\x7b\x7d")
          CRITICAL ("Graylog API replied with HTTP code " ++ toString 500) none
      = Run.exit ["CRITICAL - Graylog API replied with HTTP code 500|time=0.000000;;;; "
          ++ "total=0;;;; sources=0;;;; throughput=0;;;; index_failures=0;;;; uncommited=0;;;;; "
          ++ "processbuffertime=0.0000000000;;;;; inputbufferate_m15=0.000000\n"] 2 :=
  ⟨by rfl,
    (query_status_after_decoding
      (worldPatched "/system/cluster/nodes" (.body 500 "\x7b\x7d" (.ok [])))
      "http://localhost:12900/system/cluster/nodes" "admin" "secret" (initSt testLib) 500
      "\x7b\x7d" (.ok []) (by rfl)).1 [] rfl (by decide),
    by decide⟩

/-! ## The service-state step -/

theorem St.ext_fields (a b : St) (h1 : a.calls = b.calls) (h2 : a.out = b.out)
    (h3 : a.pdata = b.pdata) (h4 : a.critical_node = b.critical_node)
    (h5 : a.running_node = b.running_node) : a = b := by
  cases a; cases b; simp_all

theorem received_calls (W : World) (st : St) (text : String) :
    (received W st text).calls = st.calls + 1 := by
  unfold received; split <;> rfl

theorem received_pdata (W : World) (st : St) (text : String) :
    (received W st text).pdata = st.pdata := by
  unfold received; split <;> rfl

theorem received_critical_node (W : World) (st : St) (text : String) :
    (received W st text).critical_node = st.critical_node := by
  unfold received; split <;> rfl

theorem received_running_node (W : World) (st : St) (text : String) :
    (received W st text).running_node = st.running_node := by
  unfold received; split <;> rfl

theorem received_out (W : World) (st : St) (text : String) :
    (received W st text).out = st.out ++ (if len W.debug ≠ 0 then [text ++ "\n"] else []) := by
  unfold received; split <;> simp

theorem deadMessage_cons (m : JObj) (p : String × String) (roster : List (String × String)) :
    deadMessage m (p :: roster)
      = (if deadIn m p.1 = true then "Node: " ++ p.2 ++ " - not alive" else "")
        ++ deadMessage m roster := by
  unfold deadMessage
  by_cases h : deadIn m p.1 = true
  · simp [List.filter, h, concat]
  · simp [List.filter, h]

theorem aliveLines_cons (p : String × String) (roster : List (String × String)) :
    aliveLines (p :: roster) = ("\tNode: " ++ p.2 ++ " - is alive\n") ++ aliveLines roster := rfl

/-- One iteration of the loop on a well-typed entry whose `/cluster` request succeeds. -/
theorem nodeStep_ok (W : World) (A : Args) (c : String) (x : JVal) (p : String × String)
    (m : JObj) (text : String) (st : St) (hx : IsEntry x p)
    (hnet : W.net st.calls (c ++ "/cluster") A.user A.pass = .body 200 text (.ok m)) :
    nodeStep W A c x st = .next () (rosterState W st text m [p]) := by
  obtain ⟨node, rfl, hid, hh⟩ := hx
  have hq : query W (c ++ "/cluster") A.user A.pass st = .next m (received W st text) := by
    simp [query, hnet]
  unfold nodeStep
  simp only [bind_apply, asMap, assert, hq, hid, hh, asString]
  by_cases hd : isNil (idx m p.1) = true
  · simp only [hd, if_true, bind_apply, modifySt_apply, assert]
    congr 1
    apply St.ext_fields <;>
      simp [rosterState, received_calls, received_out, received_pdata, received_critical_node,
        received_running_node, deadMessage, aliveLines, concat, deadIn, hd, List.filter]
  · simp only [hd, Bool.false_eq_true, if_false, bind_apply, modifySt_apply, assert, pure_apply]
    congr 1
    apply St.ext_fields <;>
      simp [rosterState, received_calls, received_out, received_pdata, received_critical_node,
        received_running_node, deadMessage, aliveLines, concat, deadIn, hd, List.filter]

theorem rosterState_cons (W : World) (st : St) (text : String) (m : JObj) (p : String × String)
    (roster : List (String × String)) :
    rosterState W (rosterState W st text m [p]) text m roster
      = rosterState W st text m (p :: roster) := by
  apply St.ext_fields
  · simp [rosterState]; omega
  · simp only [rosterState]
    split <;> simp [List.replicate_succ]
  · rfl
  · simp only [rosterState, deadMessage_cons, String.append_assoc]
    simp [deadMessage, concat]
  · simp only [rosterState, aliveLines_cons, String.append_assoc]
    simp [aliveLines, concat]

/-- The loop over a well-typed roster whose `/cluster` requests all succeed. -/
theorem rosterLoop_ok (W : World) (A : Args) (c : String) (m : JObj) (text : String)
    (all : List JVal) (roster : List (String × String)) (hall : List.Forall₂ IsEntry all roster) :
    ∀ st : St,
      (∀ i, i < all.length →
        W.net (st.calls + i) (c ++ "/cluster") A.user A.pass = .body 200 text (.ok m)) →
      rosterLoop W A c all st = .next () (rosterState W st text m roster) := by
  induction hall with
  | nil =>
    intro st _
    show Step.next () st = _
    congr 1
    apply St.ext_fields <;> simp [rosterState, deadMessage, aliveLines, concat]
  | @cons x p xs ps hx _ ih =>
    intro st hnet
    have h0 := nodeStep_ok W A c x p m text st hx (by simpa using hnet 0 (by simp))
    have hcalls : (rosterState W st text m [p]).calls = st.calls + 1 := by simp [rosterState]
    have h1 := ih (rosterState W st text m [p]) (by
      intro i hi
      rw [hcalls]
      have := hnet (i + 1) (by simpa using hi)
      rw [← this]
      congr 1
      omega)
    show (nodeStep W A c x >>= fun _ => rosterLoop W A c xs) st = _
    rw [bind_apply, h0]
    simp only [h1, rosterState_cons]

theorem deadMessage_empty (m : JObj) (roster : List (String × String))
    (h : ∀ p ∈ roster, deadIn m p.1 = false) : deadMessage m roster = "" := by
  induction roster with
  | nil => rfl
  | cons p ps ih =>
    rw [deadMessage_cons, ih (fun q hq => h q (List.mem_cons_of_mem _ hq))]
    simp [h p (List.mem_cons_self _ _)]

theorem deadMessage_pos (m : JObj) (roster : List (String × String))
    (h : ∃ p ∈ roster, deadIn m p.1 = true) : 0 < len (deadMessage m roster) := by
  induction roster with
  | nil =>
    obtain ⟨p, hp, _⟩ := h
    cases hp
  | cons p ps ih =>
    rw [deadMessage_cons]
    by_cases hd : deadIn m p.1 = true
    · simp only [hd, if_true, len, String.length_append]
      have : 0 < "Node: ".length := by decide
      omega
    · obtain ⟨q, hq, hqd⟩ := h
      rcases List.mem_cons.mp hq with rfl | hq
      · exact absurd hqd hd
      · have := ih ⟨q, hq, hqd⟩
        simp only [len, String.length_append] at this ⊢
        omega

theorem deadIn_iff (m : JObj) (id : String) :
    deadIn m id = true ↔ (m.lookup id = none ∨ m.lookup id = some JVal.null) := by
  unfold deadIn idx
  cases h : m.lookup id with
  | none => simp [isNil]
  | some v => cases v <;> simp [isNil]

set_option maxRecDepth 1000000 in
/-- C6 fails as stated. The roster holds node `n-a`; the `/cluster` map holds
the key `n-a`, bound to JSON `null`. No roster entry is absent from the map,
yet the run exits CRITICAL with `Node: host-a - not alive`: the test is
`run_node[node_id] == nil`, which a key bound to `null` meets too. -/
theorem dead_node_counterexample :
    (List.lookup "n-a" ([("n-a", JVal.null)] : JObj)).isSome = true
    ∧ main testLib (worldPatched "/cluster" (ok200 "\x7b\"n-a\":null\x7d" [("n-a", .null)]))
        (argsOf "" "" "1000" "" "")
      = Run.exit ["CRITICAL - Node: host-a - not alive|time=0.000000;;;; total=0;;;; "
          ++ "sources=0;;;; throughput=0;;;; index_failures=0;;;; uncommited=0;;;;; "
          ++ "processbuffertime=0.0000000000;;;;; inputbufferate_m15=0.000000\n"] 2 := by
  decide

/-- C6, amended. For every roster of entries with string `node_id` and
`hostname` and every `/cluster` map (each request for it answered with that
map), from a state with empty `critical_node`: the step exits CRITICAL
exactly when at least one roster entry's `node_id` is absent from the map or
bound to `null` in it; the message then lists every such entry, in roster
order, as `Node: <hostname> - not alive` (with nothing in between); when
there is no such entry the step does not exit. -/
theorem dead_nodes_absent_or_null (W : World) (A : Args) (c : String) (m : JObj) (text : String)
    (all : List JVal) (roster : List (String × String)) (st : St)
    (hall : List.Forall₂ IsEntry all roster)
    (hnet : ∀ i, i < all.length →
      W.net (st.calls + i) (c ++ "/cluster") A.user A.pass = .body 200 text (.ok m))
    (hcrit : st.critical_node = "") :
    (∀ id, deadIn m id = true ↔ (m.lookup id = none ∨ m.lookup id = some JVal.null))
    ∧ ((∃ p ∈ roster, deadIn m p.1 = true) →
      liveness W A c all st
        = .halt (quitRun W (rosterState W st text m roster) CRITICAL
            (concat ((roster.filter (fun p => deadIn m p.1)).map
              (fun p => "Node: " ++ p.2 ++ " - not alive"))) none))
    ∧ ((∀ p ∈ roster, deadIn m p.1 = false) →
      liveness W A c all st = .next () (rosterState W st text m roster)) := by
  have hloop := rosterLoop_ok W A c m text all roster hall st hnet
  have hcn : (rosterState W st text m roster).critical_node = deadMessage m roster := by
    simp [rosterState, hcrit]
  refine ⟨deadIn_iff m, ?_, ?_⟩
  · intro hdead
    have hpos := deadMessage_pos m roster hdead
    unfold liveness
    simp only [bind_apply, hloop, getSt_apply, hcn, hpos, if_true, quit_apply]
    rfl
  · intro halive
    have hz := deadMessage_empty m roster halive
    unfold liveness
    simp only [bind_apply, hloop, getSt_apply, hcn, hz]
    rfl

set_option maxRecDepth 1000000 in
/-- C6 amended, at the roster of `n-a` (on `host-a`) and `n-b` (on `host-b`)
and a `/cluster` map that knows `n-a` only: the step exits CRITICAL with
`Node: host-b - not alive`. -/
theorem dead_nodes_witness :
    liveness (worldOf 0 0) (argsOf "" "" "1000" "" "")
        "http://localhost:12900"
        [.obj [("node_id", .str "n-a"), ("hostname", .str "host-a")],
         .obj [("node_id", .str "n-b"), ("hostname", .str "host-b")]]
        (initSt testLib)
      = .halt (Run.exit ["CRITICAL - Node: host-b - not alive|time=0.000000;;;; total=0;;;; "
          ++ "sources=0;;;; throughput=0;;;; index_failures=0;;;; uncommited=0;;;;; "
          ++ "processbuffertime=0.0000000000;;;;; inputbufferate_m15=0.000000\n"] 2) := by
  rw [(dead_nodes_absent_or_null (worldOf 0 0) (argsOf "" "" "1000" "" "")
    "http://localhost:12900" [("n-a", .obj [("lb_status", .str "alive")])]
    "\x7b\"n-a\":\x7b\"lb_status\":\"alive\"\x7d\x7d"
    [.obj [("node_id", .str "n-a"), ("hostname", .str "host-a")],
     .obj [("node_id", .str "n-b"), ("hostname", .str "host-b")]]
    [("n-a", "host-a"), ("n-b", "host-b")] (initSt testLib)
    (List.Forall₂.cons ⟨_, rfl, rfl, rfl⟩ (List.Forall₂.cons ⟨_, rfl, rfl, rfl⟩ List.Forall₂.nil))
    (fun i _ => by rfl) rfl).2.1 ⟨("n-b", "host-b"), by simp, by decide⟩]
  decide

/-! ## Every exit goes through the reporter -/

theorem sound_pure {α : Type} (W : World) (pd : String) (a : α) : Sound W pd (pure a : Prog α) :=
  fun _ h => h

theorem sound_bind {α β : Type} (W : World) (pd : String) (m : Prog α) (f : α → Prog β)
    (hm : Sound W pd m) (hf : ∀ a, Sound W pd (f a)) : Sound W pd (m >>= f) := by
  intro st hst
  have h1 := hm st hst
  rw [bind_apply]
  cases h : m st with
  | next a st1 =>
    rw [h] at h1
    exact hf a st1 h1
  | halt r =>
    rw [h] at h1
    exact h1

theorem reported_quitRun (W : World) (st : St) (status : Nat) (message : String)
    (err : Option String) (pd : String) (hst : Inv W pd st) (hs : status ≤ 3) :
    Reported W pd (quitRun W st status message err) := by
  show ∃ status1 message1 pre, status1 ≤ 3 ∧ status = status1
      ∧ (if len W.debug ≠ 0 then st.out ++ [printlnErr err] else st.out)
          ++ [statusLine status message st.pdata] = pre ++ [statusLine status1 message1 pd]
      ∧ (len W.debug = 0 → pre = [])
  refine ⟨status, message, (if len W.debug ≠ 0 then st.out ++ [printlnErr err] else st.out), hs,
    rfl, ?_, ?_⟩
  · rw [hst.1]
  · intro hd
    simp [hd, hst.2 hd]

theorem sound_quit {α : Type} (W : World) (pd : String) (status : Nat) (message : String)
    (err : Option String) (hs : status ≤ 3) : Sound W pd (quit W status message err : Prog α) :=
  fun st hst => reported_quitRun W st status message err pd hst hs

theorem sound_assert {α : Type} (W : World) (pd : String) (o : Option α) :
    Sound W pd (assert o) := by
  intro st hst
  cases o with
  | none => exact hst.2
  | some a => exact hst

theorem sound_ite {α : Type} (W : World) (pd : String) (c : Prop) [Decidable c] (p q : Prog α)
    (hp : Sound W pd p) (hq : Sound W pd q) : Sound W pd (if c then p else q) := by
  split
  · exact hp
  · exact hq

theorem sound_getSt (W : World) (pd : String) : Sound W pd getSt := fun _ h => h

theorem sound_modifySt (W : World) (pd : String) (f : St → St)
    (hf : ∀ st, (f st).pdata = st.pdata ∧ (f st).out = st.out) : Sound W pd (modifySt f) := by
  intro st hst
  exact ⟨(hf st).1.trans hst.1, fun hd => (hf st).2.trans (hst.2 hd)⟩

theorem inv_received (W : World) (pd : String) (st : St) (text : String) (hst : Inv W pd st) :
    Inv W pd (received W st text) := by
  refine ⟨(received_pdata W st text).trans hst.1, fun hd => ?_⟩
  rw [received_out]
  simp [hd, hst.2 hd]

theorem sound_query (W : World) (pd : String) (target user pass : String) :
    Sound W pd (query W target user pass) := by
  intro st hst
  have hst1 : Inv W pd { st with calls := st.calls + 1 } := hst
  cases h : W.net st.calls target user pass with
  | requestErr =>
    have hq : query W target user pass st = .halt (.panic st.out) := by simp [query, h]
    rw [hq]
    exact hst.2
  | connectErr e =>
    have hq : query W target user pass st = .halt (quitRun W { st with calls := st.calls + 1 }
        CRITICAL "Cannot connect to Graylog API" (some e)) := by simp [query, h, quit_apply]
    rw [hq]
    exact reported_quitRun W _ _ _ _ pd hst1 (by decide)
  | readErr n e =>
    have hq : query W target user pass st = .halt (quitRun W { st with calls := st.calls + 1 }
        CRITICAL "No response received from Graylog API" (some e)) := by
      simp [query, h, quit_apply]
    rw [hq]
    exact reported_quitRun W _ _ _ _ pd hst1 (by decide)
  | body n text data =>
    cases data with
    | error e =>
      have hq : query W target user pass st = .halt (quitRun W (received W st text) UNKNOWN
          "Cannot parse JSON from Graylog API" (some e)) := by simp [query, h, quit_apply]
      rw [hq]
      exact reported_quitRun W _ _ _ _ pd (inv_received W pd st text hst) (by decide)
    | ok d =>
      by_cases hn : n = 200
      · have hq : query W target user pass st = .next d (received W st text) := by
          simp [query, h, hn]
        rw [hq]
        exact inv_received W pd st text hst
      · have hq : query W target user pass st = .halt (quitRun W (received W st text) CRITICAL
            ("Graylog API replied with HTTP code " ++ toString n) none) := by
          simp [query, h, hn, quit_apply]
        rw [hq]
        exact reported_quitRun W _ _ _ _ pd (inv_received W pd st text hst) (by decide)

theorem sound_parse (L : Lib) (W : World) (pd : String) (link : String) :
    Sound W pd (parse L W link) := by
  unfold parse
  split
  · apply sound_quit; decide
  · try dsimp only
    repeat' first
      | exact sound_pure W pd _
      | (apply sound_quit; decide)
      | apply sound_ite

theorem sound_nodeStep (W : World) (pd : String) (A : Args) (c : String) (x : JVal) :
    Sound W pd (nodeStep W A c x) := by
  unfold nodeStep
  try dsimp only
  repeat' first
    | exact sound_pure W pd _
    | exact sound_assert W pd _
    | exact sound_query W pd _ _ _
    | exact sound_modifySt W pd _ (fun _ => ⟨rfl, rfl⟩)
    | apply sound_ite
    | apply sound_bind
    | intro _

theorem sound_rosterLoop (W : World) (pd : String) (A : Args) (c : String) (all : List JVal) :
    Sound W pd (rosterLoop W A c all) := by
  induction all with
  | nil => exact sound_pure W pd _
  | cons x xs ih =>
    exact sound_bind W pd _ _ (sound_nodeStep W pd A c x) (fun _ => ih)

theorem sound_roster (W : World) (pd : String) (A : Args) (c : String) :
    Sound W pd (roster W A c) := by
  unfold roster liveness
  try dsimp only
  repeat' first
    | exact sound_pure W pd _
    | exact sound_assert W pd _
    | exact sound_query W pd _ _ _
    | exact sound_getSt W pd
    | exact sound_rosterLoop W pd A c _
    | (apply sound_quit; decide)
    | apply sound_ite
    | apply sound_bind
    | intro _

theorem sound_serviceState (W : World) (pd : String) (A : Args) (c : String) :
    Sound W pd (serviceState W A c) := by
  unfold serviceState systemChecks
  try dsimp only
  repeat' first
    | exact sound_pure W pd _
    | exact sound_assert W pd _
    | exact sound_query W pd _ _ _
    | (apply sound_quit; decide)
    | apply sound_ite
    | apply sound_bind
    | intro _

theorem sound_metrics (W : World) (pd : String) (A : Args) (c : String) (t : JVal) :
    Sound W pd (metrics W A c t) := by
  unfold metrics
  try dsimp only
  repeat' first
    | exact sound_pure W pd _
    | exact sound_assert W pd _
    | exact sound_query W pd _ _ _
    | apply sound_bind
    | intro _

theorem sound_sampling (L : Lib) (W : World) (pd : String) (A : Args) :
    Sound W pd (sampling L W A) := by
  unfold sampling
  apply sound_bind _ _ _ _ (sound_parse L W pd _); intro c
  apply sound_bind _ _ _ _ (sound_roster W pd A c); intro t
  apply sound_bind _ _ _ _ (sound_serviceState W pd A c); intro _
  exact sound_metrics W pd A c t

theorem reported_consoleRun (L : Lib) (W : World) (s : Sample) (st : St) (status : Nat)
    (head : String) (pd : String) (hst : Inv W pd st) (hs : status ≤ 3) :
    Reported W pd (consoleRun L W s st status head) := by
  unfold consoleRun
  cases asFloat s.total_cluster_nodes with
  | none => exact hst.2
  | some n => exact reported_quitRun W st status _ none pd hst hs

theorem sound_quitConsole {α : Type} (L : Lib) (W : World) (pd : String) (s : Sample)
    (status : Nat) (head : String) (hs : status ≤ 3) :
    Sound W pd (quitConsole L W s status head : Prog α) :=
  fun st hst => reported_consoleRun L W s st status head pd hst hs

theorem sound_thresholds (L : Lib) (W : World) (pd : String) (A : Args) (s : Sample) :
    Sound W pd (thresholds L W A s) := by
  unfold thresholds noThresholdsCheck indexWarnCheck indexCritCheck uncommitCheck
    processBufferCheck inputBufferCheck
  try dsimp only
  repeat' first
    | exact sound_pure W pd _
    | (apply sound_quit; decide)
    | (apply sound_quitConsole; decide)
    | apply sound_ite
    | apply sound_bind
    | intro _

theorem inv_initSt (L : Lib) (W : World) :
    Inv W (perf L F64.zero F64.zero F64.zero F64.zero F64.zero F64.zero F64.zero F64.zero)
      (initSt L) :=
  ⟨rfl, fun _ => rfl⟩

/-- The run of lines 142-253 ends in a panic, in a reporter exit with the
perfdata of `init`, or in a reporter exit with the perfdata of the sample. -/
theorem mainProg_reported (L : Lib) (W : World) (A : Args) (r : Run)
    (h : mainProg L W A (initSt L) = .halt r) :
    (sampling L W A (initSt L) = .halt r
      ∧ Reported W (perf L F64.zero F64.zero F64.zero F64.zero F64.zero F64.zero F64.zero
          F64.zero) r)
    ∨ ∃ s, Reported W (perfOf L s) r := by
  have hs := sound_sampling L W _ A (initSt L) (inv_initSt L W)
  unfold mainProg at h
  rw [bind_apply] at h
  cases hsm : sampling L W A (initSt L) with
  | halt r1 =>
    rw [hsm] at h hs
    simp only [Step.halt.injEq] at h
    subst h
    exact Or.inl ⟨rfl, hs⟩
  | next s st1 =>
    rw [hsm] at h hs
    simp only [bind_apply, modifySt_apply] at h
    have hinv : Inv W (perfOf L s) { st1 with pdata := perfOf L s } := ⟨rfl, hs.2⟩
    have ht := sound_thresholds L W (perfOf L s) A s _ hinv
    rw [h] at ht
    exact Or.inr ⟨s, ht⟩

theorem main_eq (L : Lib) (W : World) (A : Args) (hv : A.version = false) (hu : len A.user ≠ 0)
    (hp : len A.pass ≠ 0) (r : Run) (h : main L W A = r) :
    mainProg L W A (initSt L) = .halt r := by
  unfold main at h
  simp only [hv, Bool.false_eq_true, if_false, hu, hp, or_self] at h
  cases hm : mainProg L W A (initSt L) with
  | halt r1 =>
    rw [hm] at h
    rw [← h]
  | next e _ => exact nomatch e

theorem ev_mem (status : Nat) (hs : status ≤ 3) :
    ev status ∈ ["OK", "WARNING", "CRITICAL", "UNKNOWN"] := by
  interval_cases status <;> simp [ev]

/-- C9. The reporter prints `<SEVERITY> - <message>|<perfdata>` (after the
debug output, if any) and exits with the code of the severity, for each of
OK/0, WARNING/1, CRITICAL/2, UNKNOWN/3 and every message. In every reporter
exit of `main` the perfdata is the sequence `time=..;;;; total=..;;;;
sources=..;;;; throughput=..;;;; index_failures=..;;;; uncommited=..;;;;;
processbuffertime=..;;;;; inputbufferate_m15=..` of eight formatted values,
in this order and with these suffixes; and on every reporter exit taken
before metric sampling has completed the eight values are zero. -/
theorem status_line_and_perfdata (L : Lib) (W : World) :
    (∀ (st : St) (message : String) (err : Option String),
      quitRun W st OK message err
        = Run.exit ((if len W.debug ≠ 0 then st.out ++ [printlnErr err] else st.out)
            ++ ["OK - " ++ message ++ "|" ++ st.pdata ++ "\n"]) 0
      ∧ quitRun W st WARNING message err
        = Run.exit ((if len W.debug ≠ 0 then st.out ++ [printlnErr err] else st.out)
            ++ ["WARNING - " ++ message ++ "|" ++ st.pdata ++ "\n"]) 1
      ∧ quitRun W st CRITICAL message err
        = Run.exit ((if len W.debug ≠ 0 then st.out ++ [printlnErr err] else st.out)
            ++ ["CRITICAL - " ++ message ++ "|" ++ st.pdata ++ "\n"]) 2
      ∧ quitRun W st UNKNOWN message err
        = Run.exit ((if len W.debug ≠ 0 then st.out ++ [printlnErr err] else st.out)
            ++ ["UNKNOWN - " ++ message ++ "|" ++ st.pdata ++ "\n"]) 3)
    ∧ (∀ (A : Args) (out : List String) (code : Nat), A.version = false → len A.user ≠ 0 →
      len A.pass ≠ 0 → main L W A = .exit out code →
      ∃ (status : Nat) (message : String) (pre : List String) (e t i tp x u p b : F64),
        ev status ∈ ["OK", "WARNING", "CRITICAL", "UNKNOWN"] ∧ code = status
        ∧ out = pre ++ [ev status ++ " - " ++ message ++ "|"
            ++ ("time=" ++ L.fmtF e ++ ";;;; total=" ++ L.fmt0 t ++ ";;;; sources=" ++ L.fmt0 i
              ++ ";;;; throughput=" ++ L.fmt0 tp ++ ";;;; index_failures=" ++ L.fmt0 x
              ++ ";;;; uncommited=" ++ L.fmt0 u ++ ";;;;; processbuffertime=" ++ L.fmt10 p
              ++ ";;;;; inputbufferate_m15=" ++ L.fmt6 b) ++ "\n"])
    ∧ (∀ (A : Args) (out : List String) (code : Nat),
      sampling L W A (initSt L) = .halt (.exit out code) →
      ∃ (status : Nat) (message : String) (pre : List String),
        ev status ∈ ["OK", "WARNING", "CRITICAL", "UNKNOWN"] ∧ code = status
        ∧ out = pre ++ [ev status ++ " - " ++ message ++ "|"
            ++ ("time=" ++ L.fmtF F64.zero ++ ";;;; total=" ++ L.fmt0 F64.zero ++ ";;;; sources="
              ++ L.fmt0 F64.zero ++ ";;;; throughput=" ++ L.fmt0 F64.zero ++ ";;;; index_failures="
              ++ L.fmt0 F64.zero ++ ";;;; uncommited=" ++ L.fmt0 F64.zero
              ++ ";;;;; processbuffertime=" ++ L.fmt10 F64.zero ++ ";;;;; inputbufferate_m15="
              ++ L.fmt6 F64.zero) ++ "\n"]) := by
  refine ⟨fun st message err => ⟨rfl, rfl, rfl, rfl⟩, ?_, ?_⟩
  · intro A out code hv hu hp hmain
    have hm := main_eq L W A hv hu hp _ hmain
    rcases mainProg_reported L W A _ hm with ⟨_, hr⟩ | ⟨s, hr⟩
    · obtain ⟨status, message, pre, hs, hc, ho, _⟩ := hr
      exact ⟨status, message, pre, F64.zero, F64.zero, F64.zero, F64.zero, F64.zero, F64.zero,
        F64.zero, F64.zero, ev_mem status hs, hc, ho⟩
    · obtain ⟨status, message, pre, hs, hc, ho, _⟩ := hr
      exact ⟨status, message, pre, L.Seconds s.elapsed, s.total_events, s.inputs_total, s.tput,
        s.index_total, s.uncommited, s.processBufferTime, s.inputBuffer, ev_mem status hs, hc, ho⟩
  · intro A out code hs
    have h := sound_sampling L W _ A (initSt L) (inv_initSt L W)
    rw [hs] at h
    obtain ⟨status, message, pre, hs3, hc, ho, _⟩ := h
    exact ⟨status, message, pre, ev_mem status hs3, hc, ho⟩

set_option maxRecDepth 1000000 in
/-- C9 at a run whose first request does not connect: the run exits CRITICAL
before any metric is sampled, with all eight values zero. -/
theorem status_line_and_perfdata_witness :
    sampling testLib worldDown (argsOf "" "" "1000" "" "") (initSt testLib)
      = .halt (.exit ["CRITICAL - Cannot connect to Graylog API|time=0.000000;;;; total=0;;;; "
          ++ "sources=0;;;; throughput=0;;;; index_failures=0;;;; uncommited=0;;;;; "
          ++ "processbuffertime=0.0000000000;;;;; inputbufferate_m15=0.000000\n"] 2)
    ∧ ∃ (status : Nat) (message : String) (pre : List String),
        ev status ∈ ["OK", "WARNING", "CRITICAL", "UNKNOWN"] ∧ 2 = status
        ∧ ["CRITICAL - Cannot connect to Graylog API|time=0.000000;;;; total=0;;;; "
          ++ "sources=0;;;; throughput=0;;;; index_failures=0;;;; uncommited=0;;;;; "
          ++ "processbuffertime=0.0000000000;;;;; inputbufferate_m15=0.000000\n"]
          = pre ++ [ev status ++ " - " ++ message ++ "|"
            ++ ("time=" ++ testLib.fmtF F64.zero ++ ";;;; total=" ++ testLib.fmt0 F64.zero
              ++ ";;;; sources=" ++ testLib.fmt0 F64.zero ++ ";;;; throughput="
              ++ testLib.fmt0 F64.zero ++ ";;;; index_failures=" ++ testLib.fmt0 F64.zero
              ++ ";;;; uncommited=" ++ testLib.fmt0 F64.zero ++ ";;;;; processbuffertime="
              ++ testLib.fmt10 F64.zero ++ ";;;;; inputbufferate_m15=" ++ testLib.fmt6 F64.zero)
            ++ "\n"] :=
  ⟨by rfl, (status_line_and_perfdata testLib worldDown).2.2 (argsOf "" "" "1000" "" "") _ _
    (by rfl)⟩

end Graylog
